import Mathlib

/-!
# Foreach dispatch utilities (`aten/src/ATen/native/ForeachUtils.h`)

A shallow embedding of the structural validator (`check_foreach_api_restrictions`),
the fast-path eligibility checker (`check_fast_path_restrictions`) and the
packed-scalar decoder (`convert_tensor_to_scalar_list`), followed by the
properties proved about them.

Conventions of the embedding:
* a `TensorList` / `ArrayRef<T>` is a `List`: the view and the array it points into
  are one and the same, so a position past the view's end holds no object;
* a call that may raise returns `Except Error _`; `TORCH_CHECK` failures carry
  their message. `ArrayRef::operator[]` is unchecked in the source and raises
  nothing: `Error.out_of_bounds` marks a read at a position that holds no object,
  where the source's behaviour is undefined. Section `Unchecked` embeds the checker
  over views into longer arrays, where such a read returns the object found there;
* the tensor queries (`scalar_type`, `device`, `layout`, `sizes`, ...) are the
  fields of `Tensor`; the type-promotion oracle `at::native::result_type` and
  the `c10::Scalar` constructor are parameters of the functions that call them.
-/

namespace ForeachUtils

/-! ## Data model -/

/-- Modelled from the spec: the element dtype tags (`c10::ScalarType`), which the
header only uses; the enumeration itself is declared in `c10/core/ScalarType.h`. -/
inductive ScalarType
  | Byte | Char | Short | Int | Long
  | Half | Float | Double
  | ComplexHalf | ComplexFloat | ComplexDouble
  | Bool
  | QInt8 | QUInt8 | QInt32
  | BFloat16
  | QUInt4x2 | QUInt2x4
  | Undefined
  deriving DecidableEq, Repr

/-- Modelled from the spec: the integral-dtype-membership predicate
(`at::isIntegralType`), parameterised by whether boolean counts as integral. -/
def isIntegralType (t : ScalarType) (includeBool : Bool) : Bool :=
  let isIntegral :=
    t == ScalarType.Byte || t == ScalarType.Char || t == ScalarType.Int ||
      t == ScalarType.Long || t == ScalarType.Short
  isIntegral || (includeBool && t == ScalarType.Bool)

/-- Modelled from the spec: the kinds of device a tensor can live on
(`c10::DeviceType`); `CPU` is host memory. -/
inductive DeviceType
  | CPU | CUDA | HIP | XLA | MPS | Meta
  deriving DecidableEq, Repr

/-- Modelled from the spec: a device identity (`c10::Device`): a device type and
an index, `-1` standing for "no index". -/
structure Device where
  type : DeviceType
  index : Int
  deriving DecidableEq, Repr

/-- The device `c10::kCPU` converts to when it is compared with a `Device`. -/
def kCPU : Device := ⟨DeviceType.CPU, -1⟩

/-- Modelled from the spec: the lower-case name of a device type. -/
def DeviceType.name : DeviceType → String
  | .CPU => "cpu"
  | .CUDA => "cuda"
  | .HIP => "hip"
  | .XLA => "xla"
  | .MPS => "mps"
  | .Meta => "meta"

/-- Modelled from the spec: how a device is printed in a message: its type name,
followed by `:index` when it has an index. -/
def Device.str (d : Device) : String :=
  if 0 ≤ d.index then d.type.name ++ ":" ++ toString d.index else d.type.name

/-- Modelled from the spec: the memory layout tag of a tensor (`c10::Layout`). -/
inductive Layout
  | Strided | Sparse | SparseCsr | Mkldnn | SparseCsc | SparseBsr | SparseBsc
  deriving DecidableEq, Repr

/-- The layout `at::kStrided`. -/
def kStrided : Layout := Layout.Strided

/-- A tensor handle, as far as the header reads it: one field per read-only query.
`data_ptr i` is the raw element at offset `i` from `data_ptr<scalar_t>()`. -/
structure Tensor (α : Type) where
  scalar_type : ScalarType
  device : Device
  layout : Layout
  is_non_overlapping_and_dense : Bool
  is_contiguous : Bool
  sizes : List Int
  strides : List Int
  data_ptr : Nat → α

/-- The query `tensor.dim()`. -/
def Tensor.dim {α : Type} (t : Tensor α) : Nat := t.sizes.length

/-- The outcome of a call that does not return normally. -/
inductive Error
  /-- The call raised through `TORCH_CHECK` with this message. -/
  | torch_check (msg : String)
  /-- The dtype dispatch has no case for this dtype (`AT_ERROR` of the dispatch macro). -/
  | not_implemented (op : String) (dtype : ScalarType)
  /-- An `ArrayRef` was indexed at or past its length. -/
  | out_of_bounds
  deriving DecidableEq, Repr

/-- The macro `TORCH_CHECK(cond, msg...)`: passes when `cond` holds, raises with the
concatenated message otherwise. -/
def TORCH_CHECK (cond : Bool) (msg : String) : Except Error Unit :=
  if cond then Except.ok () else Except.error (Error.torch_check msg)

/-- The access `xs[i]` of `ArrayRef::operator[]` on a list that is the whole underlying
array. The source does not compare `i` with the length; `Error.out_of_bounds` marks the
read past the array, which has no defined result (`ArrayRef.get` is the same access on
a view into a longer array). -/
def index {β : Type} (xs : List β) (i : Nat) : Except Error β :=
  match xs[i]? with
  | some x => Except.ok x
  | none => Except.error Error.out_of_bounds

/-- The query `tensor.size(d)`. -/
def Tensor.size {α : Type} (t : Tensor α) (d : Nat) : Except Error Int :=
  index t.sizes d

/-! ## Dtype queries over a tensor list -/

section DtypeQueries

variable {α : Type}

/-- Source lines 16-21: `has_integral_tensor(TensorList, bool)`, a `std::any_of`. -/
def has_integral_tensor (tensors : List (Tensor α)) (includeBool : Bool) : Bool :=
  tensors.any fun t => isIntegralType t.scalar_type includeBool

/-- Source lines 23-27: `has_bool_tensor(TensorList)`, a `std::any_of`. -/
def has_bool_tensor (tensors : List (Tensor α)) : Bool :=
  tensors.any fun t => t.scalar_type == ScalarType.Bool

end DtypeQueries

/-! ## Structural validator -/

section Validator

variable {α σ : Type}

/-- Source lines 33-35: `check_foreach_api_restrictions(TensorList)`. -/
def check_foreach_api_restrictions (tensors : List (Tensor α)) : Except Error Unit :=
  TORCH_CHECK (!tensors.isEmpty) "Tensor list must have at least one tensor."

/-- Source lines 37-44: `check_foreach_api_restrictions(TensorList, ArrayRef<Scalar>)`. -/
def check_foreach_api_restrictions_scalars
    (tensors : List (Tensor α)) (scalars : List σ) : Except Error Unit := do
  check_foreach_api_restrictions tensors
  TORCH_CHECK (tensors.length == scalars.length)
    "Tensor list must have same number of elements as scalar list."

/-- Source lines 46-57: `check_foreach_api_restrictions(TensorList, TensorList)`. -/
def check_foreach_api_restrictions2
    (tensors1 tensors2 : List (Tensor α)) : Except Error Unit := do
  TORCH_CHECK (!tensors1.isEmpty) "Tensor list must have at least one tensor."
  TORCH_CHECK (!tensors2.isEmpty) "Tensor list must have at least one tensor."
  TORCH_CHECK (tensors1.length == tensors2.length)
    ("Tensor lists must have the same number of tensors, got " ++
      toString tensors1.length ++ " and " ++ toString tensors2.length)

/-- Source lines 59-78:
`check_foreach_api_restrictions(TensorList, TensorList, TensorList)`. -/
def check_foreach_api_restrictions3
    (tensors1 tensors2 tensors3 : List (Tensor α)) : Except Error Unit := do
  TORCH_CHECK (!tensors1.isEmpty) "Tensor list must have at least one tensor."
  TORCH_CHECK (!tensors2.isEmpty) "Tensor list must have at least one tensor."
  TORCH_CHECK (!tensors3.isEmpty) "Tensor list must have at least one tensor."
  TORCH_CHECK (tensors1.length == tensors2.length)
    ("Tensor lists must have the same number of tensors, got " ++
      toString tensors1.length ++ " and " ++ toString tensors2.length)
  TORCH_CHECK (tensors1.length == tensors3.length)
    ("Tensor lists must have the same number of tensors, got " ++
      toString tensors1.length ++ " and " ++ toString tensors3.length)

/-- Source lines 80-92:
`check_foreach_api_restrictions(TensorList, TensorList, TensorList, ArrayRef<Scalar>)`. -/
def check_foreach_api_restrictions3_scalars
    (tensors1 tensors2 tensors3 : List (Tensor α)) (scalars : List σ) :
    Except Error Unit := do
  check_foreach_api_restrictions3 tensors1 tensors2 tensors3
  TORCH_CHECK (tensors1.length == scalars.length)
    ("Tensor list must have same number of elements as scalar list, got " ++
      toString tensors1.length ++ " and " ++ toString scalars.length)

end Validator

/-! ## Fast-path eligibility checker -/

section Checker

variable {α σ : Type}

/-- Source lines 110-114: the lambda `is_tensor_okay`, with its two captures. -/
def is_tensor_okay (expected_dtype : ScalarType) (expected_device : Device)
    (tensor : Tensor α) : Bool :=
  tensor.scalar_type == expected_dtype && tensor.device == expected_device &&
    tensor.layout == kStrided && tensor.is_non_overlapping_and_dense

/-- Source lines 116-122: the dtype/device/layout loops. `true` means that the
loops ran to their end, `false` that the function returned `false` from inside. -/
def all_tensors_okay (expected_dtype : ScalarType) (expected_device : Device)
    (tensorLists : List (List (Tensor α))) : Bool :=
  tensorLists.all fun tensorList =>
    tensorList.all fun tensor => is_tensor_okay expected_dtype expected_device tensor

/-- Source lines 127-134: the loop over the positions `j` for one `tensor_list`.
`ok true`: the loop ran to its end; `ok false`: the function returned `false`. -/
def same_sizes_strides_at (first tensor_list : List (Tensor α)) :
    List Nat → Except Error Bool
  | [] => Except.ok true
  | j :: js =>
    match index first j, index tensor_list j with
    | Except.error e, _ => Except.error e
    | Except.ok _, Except.error e => Except.error e
    | Except.ok a, Except.ok b =>
      if a.sizes != b.sizes then Except.ok false
      else if a.strides != b.strides then Except.ok false
      else same_sizes_strides_at first tensor_list js

/-- Source lines 126-135: the loop over the lists, `first` being `tensorLists[0]`. -/
def same_sizes_strides (first : List (Tensor α)) :
    List (List (Tensor α)) → Except Error Bool
  | [] => Except.ok true
  | tensor_list :: rest =>
    match same_sizes_strides_at first tensor_list (List.range first.length) with
    | Except.error e => Except.error e
    | Except.ok false => Except.ok false
    | Except.ok true => same_sizes_strides first rest

/-- Source lines 149-158: the scalar check of one position `i`, run when the scalar
list is not empty. `ok false`: the function returns `false`. -/
def scalar_keeps_dtype (result_type : σ → Tensor α → ScalarType)
    (first : List (Tensor α)) (scalarList : List σ) (i : Nat) : Except Error Bool :=
  match (if scalarList.length == 1 then index scalarList 0 else index scalarList i) with
  | Except.error e => Except.error e
  | Except.ok scalar =>
    match index first i with
    | Except.error e => Except.error e
    | Except.ok tensor =>
      if tensor.scalar_type != result_type scalar tensor then Except.ok false
      else Except.ok true

/-- Source lines 143-148: the integer-promotion check of one position `i`, run when
the flag is set. `ok false`: the function returns `false`. -/
def not_integral_at (first : List (Tensor α)) (i : Nat) : Except Error Bool :=
  match index first i with
  | Except.error e => Except.error e
  | Except.ok tensor =>
    if isIntegralType tensor.scalar_type true then Except.ok false else Except.ok true

/-- Source lines 141-159: the loop over the positions `i` of the first list. -/
def promotion_loop (result_type : σ → Tensor α → ScalarType)
    (first : List (Tensor α)) (scalarList : List σ)
    (does_op_promote_integer_inputs_to_float : Bool) : List Nat → Except Error Bool
  | [] => Except.ok true
  | i :: rest =>
    match (if does_op_promote_integer_inputs_to_float then not_integral_at first i
           else Except.ok true) with
    | Except.error e => Except.error e
    | Except.ok false => Except.ok false
    | Except.ok true =>
      match (if !scalarList.isEmpty then scalar_keeps_dtype result_type first scalarList i
             else Except.ok true) with
      | Except.error e => Except.error e
      | Except.ok false => Except.ok false
      | Except.ok true =>
        promotion_loop result_type first scalarList
          does_op_promote_integer_inputs_to_float rest

/-- Source lines 103-162: `check_fast_path_restrictions`. The oracle
`at::native::result_type(scalar, tensor)` is the parameter `result_type`. -/
def check_fast_path_restrictions (result_type : σ → Tensor α → ScalarType)
    (tensorLists : List (List (Tensor α))) (scalarList : List σ)
    (does_op_promote_integer_inputs_to_float : Bool) : Except Error Bool :=
  match index tensorLists 0 with
  | Except.error e => Except.error e
  | Except.ok first =>
    match index first 0 with
    | Except.error e => Except.error e
    | Except.ok t00 =>
      let expected_dtype := t00.scalar_type
      let expected_device := t00.device
      if !all_tensors_okay expected_dtype expected_device tensorLists then Except.ok false
      else
        match same_sizes_strides first tensorLists with
        | Except.error e => Except.error e
        | Except.ok false => Except.ok false
        | Except.ok true =>
          match promotion_loop result_type first scalarList
              does_op_promote_integer_inputs_to_float (List.range first.length) with
          | Except.error e => Except.error e
          | Except.ok false => Except.ok false
          | Except.ok true => Except.ok true

end Checker

/-! ## Packed-scalar decoder -/

section Decoder

variable {α σ : Type}

/-- Modelled from the spec: the dtypes the dispatch macro
`AT_DISPATCH_ALL_TYPES_AND_COMPLEX_AND4(kComplexHalf, kHalf, kBool, kBFloat16, ...)`
has a case for: all real, complex, boolean and reduced-precision numeric kinds. -/
def dispatch_has_case (t : ScalarType) : Bool :=
  match t with
  | .Byte | .Char | .Short | .Int | .Long | .Float | .Double => true
  | .ComplexFloat | .ComplexDouble => true
  | .ComplexHalf | .Half | .Bool | .BFloat16 => true
  | _ => false

/-- Source lines 164-201: `convert_tensor_to_scalar_list`. The constructor
`c10::Scalar(scalar_t)` of the dispatched element type is the parameter `mkScalar`. -/
def convert_tensor_to_scalar_list (mkScalar : ScalarType → α → σ)
    (scalarList_ : Tensor α) (expect_length : Int) : Except Error (List σ) := do
  TORCH_CHECK (scalarList_.device == kCPU)
    ("Expected scalars to be on CPU, got " ++ scalarList_.device.str ++ " instead.")
  TORCH_CHECK scalarList_.is_contiguous "Expected scalars to be contiguous."
  TORCH_CHECK (scalarList_.dim == 1)
    ("Expected packed scalar Tensor to be of dimension 1. Got " ++
      toString scalarList_.dim ++ " instead.")
  if dispatch_has_case scalarList_.scalar_type then
    let size0 ← scalarList_.size 0
    TORCH_CHECK (expect_length == size0)
      ("Expected length of scalars to match input of length " ++
        toString expect_length ++ " but got " ++ toString size0 ++ " instead.")
    Except.ok ((List.range size0.toNat).map fun i =>
      mkScalar scalarList_.scalar_type (scalarList_.data_ptr i))
  else
    Except.error (Error.not_implemented "convert_tensor_to_scalar_list"
      scalarList_.scalar_type)

/-- Modelled from the spec: encoding `N` values of one numeric kind into a 1-D
contiguous host tensor of that kind (the encoder is not part of the header).
Element `i` of the buffer is value `i`; `fill` is what lies past the buffer. -/
def pack (dtype : ScalarType) (fill : α) (values : List α) : Tensor α where
  scalar_type := dtype
  device := kCPU
  layout := kStrided
  is_non_overlapping_and_dense := true
  is_contiguous := true
  sizes := [(values.length : Int)]
  strides := [1]
  data_ptr := fun i => values.getD i fill

end Decoder

/-! ## Fast-route wrappers -/

section FastRoute

variable {α σ : Type}

/-- Source lines 203-209:
`can_use_fast_route(ArrayRef<TensorList>, ArrayRef<Scalar>, bool)`. -/
def can_use_fast_route (result_type : σ → Tensor α → ScalarType)
    (tensorLists : List (List (Tensor α))) (scalarList : List σ)
    (does_op_promote_integer_inputs_to_float : Bool) : Except Error Bool :=
  check_fast_path_restrictions result_type tensorLists scalarList
    does_op_promote_integer_inputs_to_float

/-- Source lines 211-217: `can_use_fast_route(TensorList, TensorList, bool)`, which
calls the overload above with the two lists and an empty scalar list. -/
def can_use_fast_route2 (result_type : σ → Tensor α → ScalarType)
    (tensors1 tensors2 : List (Tensor α))
    (does_op_promote_integer_inputs_to_float : Bool) : Except Error Bool :=
  can_use_fast_route result_type [tensors1, tensors2] []
    does_op_promote_integer_inputs_to_float

end FastRoute

/-! ## Views into longer arrays: the checker with its unchecked `operator[]` -/

section UncheckedIndexing

variable {α σ β : Type}

/-- An `ArrayRef<T>` together with the array it points into: `storage` is the array from
the data pointer on, `Length` the number of elements the view spans; the view lies
within the array. -/
structure ArrayRef (β : Type) where
  storage : List β
  Length : Nat
  within : Length ≤ storage.length

/-- The view that spans a whole array. -/
def ArrayRef.ofList (xs : List β) : ArrayRef β := ⟨xs, xs.length, Nat.le_refl _⟩

/-- The query `size()`. -/
def ArrayRef.size (a : ArrayRef β) : Nat := a.Length

/-- The query `empty()`. -/
def ArrayRef.empty (a : ArrayRef β) : Bool := a.Length == 0

/-- The elements from `begin()` to `end()`, which a range-based `for` visits. -/
def ArrayRef.elements (a : ArrayRef β) : List β := a.storage.take a.Length

/-- The access `a[i]` of `ArrayRef::operator[]`: it returns `Data[i]` and never compares
`i` with `Length`. `none`: the array holds no object at position `i`, and the read has
no defined result. -/
def ArrayRef.get (a : ArrayRef β) (i : Nat) : Option β := a.storage[i]?

namespace Unchecked

/-- Source lines 127-134 over views: the loop over the positions `j`. `some true`: the
loop ran to its end; `some false`: the function returned `false`. -/
def same_sizes_strides_at (first tensor_list : ArrayRef (Tensor α)) :
    List Nat → Option Bool
  | [] => some true
  | j :: js =>
    match first.get j, tensor_list.get j with
    | some a, some b =>
      if a.sizes != b.sizes then some false
      else if a.strides != b.strides then some false
      else same_sizes_strides_at first tensor_list js
    | _, _ => none

/-- Source lines 126-135 over views: the loop over the lists. -/
def same_sizes_strides (first : ArrayRef (Tensor α)) :
    List (ArrayRef (Tensor α)) → Option Bool
  | [] => some true
  | tensor_list :: rest =>
    match same_sizes_strides_at first tensor_list (List.range first.size) with
    | none => none
    | some false => some false
    | some true => same_sizes_strides first rest

/-- Source lines 149-158 over views: the scalar check of one position `i`. -/
def scalar_keeps_dtype (result_type : σ → Tensor α → ScalarType)
    (first : ArrayRef (Tensor α)) (scalarList : ArrayRef σ) (i : Nat) : Option Bool :=
  match (if scalarList.size == 1 then scalarList.get 0 else scalarList.get i) with
  | none => none
  | some scalar =>
    match first.get i with
    | none => none
    | some tensor =>
      if tensor.scalar_type != result_type scalar tensor then some false else some true

/-- Source lines 143-148 over views: the integer-promotion check of one position `i`. -/
def not_integral_at (first : ArrayRef (Tensor α)) (i : Nat) : Option Bool :=
  match first.get i with
  | none => none
  | some tensor => if isIntegralType tensor.scalar_type true then some false else some true

/-- Source lines 141-159 over views: the loop over the positions `i`. -/
def promotion_loop (result_type : σ → Tensor α → ScalarType)
    (first : ArrayRef (Tensor α)) (scalarList : ArrayRef σ)
    (does_op_promote_integer_inputs_to_float : Bool) : List Nat → Option Bool
  | [] => some true
  | i :: rest =>
    match (if does_op_promote_integer_inputs_to_float then not_integral_at first i
           else some true) with
    | none => none
    | some false => some false
    | some true =>
      match (if !scalarList.empty then scalar_keeps_dtype result_type first scalarList i
             else some true) with
      | none => none
      | some false => some false
      | some true =>
        promotion_loop result_type first scalarList
          does_op_promote_integer_inputs_to_float rest

/-- Source lines 103-162 over views: `check_fast_path_restrictions` with every
`operator[]` unchecked. `some b`: the call returns `b`; `none`: a read found no
object. -/
def check_fast_path_restrictions (result_type : σ → Tensor α → ScalarType)
    (tensorLists : ArrayRef (ArrayRef (Tensor α))) (scalarList : ArrayRef σ)
    (does_op_promote_integer_inputs_to_float : Bool) : Option Bool :=
  match tensorLists.get 0 with
  | none => none
  | some first =>
    match first.get 0 with
    | none => none
    | some t00 =>
      let expected_dtype := t00.scalar_type
      let expected_device := t00.device
      if !all_tensors_okay expected_dtype expected_device
          (tensorLists.elements.map ArrayRef.elements) then some false
      else
        match same_sizes_strides first tensorLists.elements with
        | none => none
        | some false => some false
        | some true =>
          match promotion_loop result_type first scalarList
              does_op_promote_integer_inputs_to_float (List.range first.size) with
          | none => none
          | some false => some false
          | some true => some true

end Unchecked

end UncheckedIndexing

/-! ## Vocabulary of the statements -/

section Vocabulary

variable {α σ : Type}

/-- The message of the "at least one tensor" check. -/
def empty_list_message : String := "Tensor list must have at least one tensor."

/-- The message of a tensor-list length mismatch between lengths `m` and `n`. -/
def tensor_mismatch_message (m n : Nat) : String :=
  "Tensor lists must have the same number of tensors, got " ++
    toString m ++ " and " ++ toString n

/-- The message of the three-list overload for a scalar list of the wrong length. -/
def scalar_mismatch_message (m n : Nat) : String :=
  "Tensor list must have same number of elements as scalar list, got " ++
    toString m ++ " and " ++ toString n

/-- The message of the one-list overload for a scalar list of the wrong length. -/
def scalar_mismatch_message_fixed : String :=
  "Tensor list must have same number of elements as scalar list."

/-- A concrete tensor of the given dtype, sizes and strides: on the CPU, strided,
dense and contiguous, element `i` of its buffer being `i + 10`. -/
def sample_tensor (dtype : ScalarType) (sizes strides : List Int) : Tensor Nat where
  scalar_type := dtype
  device := kCPU
  layout := kStrided
  is_non_overlapping_and_dense := true
  is_contiguous := true
  sizes := sizes
  strides := strides
  data_ptr := fun i => i + 10

/-- A float32 vector of three elements. -/
def float_vec3 : Tensor Nat := sample_tensor ScalarType.Float [3] [1]

/-- Structurally valid input of the checker: a non-empty sequence of tensor lists, all
of the same length `L` with `1 ≤ L`, and a scalar list of length 0, 1 or `L`. -/
def StructurallyValid (tensorLists : List (List (Tensor α))) (scalarList : List σ)
    (L : Nat) : Prop :=
  0 < tensorLists.length ∧ 1 ≤ L ∧ (∀ tensorList ∈ tensorLists, tensorList.length = L) ∧
    (scalarList.length = 0 ∨ scalarList.length = 1 ∨ scalarList.length = L)

instance (tensorLists : List (List (Tensor α))) (scalarList : List σ) (L : Nat) :
    Decidable (StructurallyValid tensorLists scalarList L) := by
  unfold StructurallyValid
  infer_instance

/-- The scalar the checker selects for position `i`: the only scalar when the list
has length 1, otherwise scalar `i` (`none` when there is no such scalar). -/
def selected_scalar (scalarList : List σ) (i : Nat) : Option σ :=
  if scalarList.length = 1 then scalarList[0]? else scalarList[i]?

/-- Two tensor lists agree at position `j`: both have a tensor there, with the same
sizes and the same strides. -/
def SameGeometryAt (a b : List (Tensor α)) (j : Nat) : Prop :=
  ∃ x y, a[j]? = some x ∧ b[j]? = some y ∧ x.sizes = y.sizes ∧ x.strides = y.strides

/-- A sample promotion oracle. The scalar is `true` for a floating-point scalar and
`false` for an integer one: a floating-point scalar promotes an integral tensor to
`Float`, every other pair keeps the dtype of the tensor. -/
def sample_result_type (scalar_is_floating : Bool) (t : Tensor Nat) : ScalarType :=
  if scalar_is_floating && isIntegralType t.scalar_type true then ScalarType.Float
  else t.scalar_type

/-- A float32 matrix of two rows and three columns, row-major. -/
def float_mat23 : Tensor Nat := sample_tensor ScalarType.Float [2, 3] [3, 1]

/-- Two parallel tensor lists of length 2: a float32 vector and a float32 matrix each. -/
def sample_lists : List (List (Tensor Nat)) :=
  [[float_vec3, float_mat23], [float_vec3, float_mat23]]

/-- An int32 vector of three elements. -/
def int_vec3 : Tensor Nat := sample_tensor ScalarType.Int [3] [1]

/-- A boolean vector of three elements. -/
def bool_vec3 : Tensor Nat := sample_tensor ScalarType.Bool [3] [1]

/-- Every second element of a float32 vector of six elements: three elements with
stride 2, strided but neither dense nor contiguous. -/
def float_every_second : Tensor Nat where
  scalar_type := ScalarType.Float
  device := kCPU
  layout := kStrided
  is_non_overlapping_and_dense := false
  is_contiguous := false
  sizes := [3]
  strides := [2]
  data_ptr := fun i => i + 10

/-- A view of no element at the start of an array that holds one float32 vector. -/
def empty_view : ArrayRef (Tensor Nat) := ⟨[float_vec3], 0, by decide⟩

/-- A view of the first element of an array that holds two float32 vectors. -/
def short_view : ArrayRef (Tensor Nat) := ⟨[float_vec3, float_vec3], 1, by decide⟩

/-- The view of a whole array of two float32 vectors. -/
def long_view : ArrayRef (Tensor Nat) := ArrayRef.ofList [float_vec3, float_vec3]

end Vocabulary

/-! ## Properties of the structural validator -/

section ValidatorProofs

variable {α σ : Type}

theorem check1_eq (tensors : List (Tensor α)) :
    check_foreach_api_restrictions tensors =
      if tensors.isEmpty then Except.error (Error.torch_check empty_list_message)
      else Except.ok () := by
  cases tensors <;> rfl

theorem check1_scalars_eq (tensors : List (Tensor α)) (scalars : List σ) :
    check_foreach_api_restrictions_scalars tensors scalars =
      if tensors.isEmpty then Except.error (Error.torch_check empty_list_message)
      else if tensors.length = scalars.length then Except.ok ()
      else Except.error (Error.torch_check scalar_mismatch_message_fixed) := by
  cases tensors with
  | nil => rfl
  | cons t ts =>
    by_cases h : (t :: ts).length = scalars.length
    · simp [check_foreach_api_restrictions_scalars, check_foreach_api_restrictions,
        TORCH_CHECK, bind, Except.bind, h]
    · simp [check_foreach_api_restrictions_scalars, check_foreach_api_restrictions,
        TORCH_CHECK, bind, Except.bind, h, scalar_mismatch_message_fixed]

theorem check2_eq (tensors1 tensors2 : List (Tensor α)) :
    check_foreach_api_restrictions2 tensors1 tensors2 =
      if tensors1.isEmpty then Except.error (Error.torch_check empty_list_message)
      else if tensors2.isEmpty then Except.error (Error.torch_check empty_list_message)
      else if tensors1.length = tensors2.length then Except.ok ()
      else Except.error
        (Error.torch_check (tensor_mismatch_message tensors1.length tensors2.length)) := by
  cases tensors1 with
  | nil => rfl
  | cons a as =>
    cases tensors2 with
    | nil => rfl
    | cons b bs =>
      by_cases h : (a :: as).length = (b :: bs).length
      · simp [check_foreach_api_restrictions2, TORCH_CHECK, bind, Except.bind, h]
      · simp [check_foreach_api_restrictions2, TORCH_CHECK, bind, Except.bind, h,
          tensor_mismatch_message]

theorem check3_eq (tensors1 tensors2 tensors3 : List (Tensor α)) :
    check_foreach_api_restrictions3 tensors1 tensors2 tensors3 =
      if tensors1.isEmpty then Except.error (Error.torch_check empty_list_message)
      else if tensors2.isEmpty then Except.error (Error.torch_check empty_list_message)
      else if tensors3.isEmpty then Except.error (Error.torch_check empty_list_message)
      else if tensors1.length ≠ tensors2.length then Except.error
        (Error.torch_check (tensor_mismatch_message tensors1.length tensors2.length))
      else if tensors1.length ≠ tensors3.length then Except.error
        (Error.torch_check (tensor_mismatch_message tensors1.length tensors3.length))
      else Except.ok () := by
  cases tensors1 with
  | nil => rfl
  | cons a as =>
    cases tensors2 with
    | nil => rfl
    | cons b bs =>
      cases tensors3 with
      | nil => rfl
      | cons c cs =>
        by_cases h : as.length = bs.length
        · by_cases h2 : as.length = cs.length
          · have h3 : bs.length = cs.length := h ▸ h2
            simp [check_foreach_api_restrictions3, TORCH_CHECK, bind, Except.bind, h3, h2]
          · have h3 : ¬ bs.length = cs.length := h ▸ h2
            simp [check_foreach_api_restrictions3, TORCH_CHECK, bind, Except.bind, h, h3,
              tensor_mismatch_message]
        · simp [check_foreach_api_restrictions3, TORCH_CHECK, bind, Except.bind, h,
            tensor_mismatch_message]

theorem check3_scalars_eq (tensors1 tensors2 tensors3 : List (Tensor α))
    (scalars : List σ) :
    check_foreach_api_restrictions3_scalars tensors1 tensors2 tensors3 scalars =
      match check_foreach_api_restrictions3 tensors1 tensors2 tensors3 with
      | Except.error e => Except.error e
      | Except.ok _ =>
        if tensors1.length = scalars.length then Except.ok ()
        else Except.error
          (Error.torch_check (scalar_mismatch_message tensors1.length scalars.length)) := by
  unfold check_foreach_api_restrictions3_scalars
  cases check_foreach_api_restrictions3 tensors1 tensors2 tensors3 with
  | error e => rfl
  | ok u =>
    by_cases h : tensors1.length = scalars.length
    · simp [TORCH_CHECK, bind, Except.bind, h]
    · simp [TORCH_CHECK, bind, Except.bind, h, scalar_mismatch_message]

/-- Claim C2: the overloads taking one, two or three tensor lists complete without
error exactly when every supplied list is non-empty and all supplied lists have the
same length (for three lists this includes the second and third list having equal
length); in every other case they fail with a `TORCH_CHECK` error. -/
theorem tensor_list_overloads_succeed_iff (tensors1 tensors2 tensors3 : List (Tensor α)) :
    (check_foreach_api_restrictions tensors1 = Except.ok () ↔ tensors1 ≠ []) ∧
    (check_foreach_api_restrictions2 tensors1 tensors2 = Except.ok () ↔
      (tensors1 ≠ [] ∧ tensors2 ≠ []) ∧ tensors1.length = tensors2.length) ∧
    (check_foreach_api_restrictions3 tensors1 tensors2 tensors3 = Except.ok () ↔
      (tensors1 ≠ [] ∧ tensors2 ≠ [] ∧ tensors3 ≠ []) ∧
        tensors1.length = tensors2.length ∧ tensors1.length = tensors3.length ∧
        tensors2.length = tensors3.length) ∧
    (tensors1 = [] → ∃ msg,
      check_foreach_api_restrictions tensors1 = Except.error (Error.torch_check msg)) ∧
    (¬ ((tensors1 ≠ [] ∧ tensors2 ≠ []) ∧ tensors1.length = tensors2.length) → ∃ msg,
      check_foreach_api_restrictions2 tensors1 tensors2 =
        Except.error (Error.torch_check msg)) ∧
    (¬ ((tensors1 ≠ [] ∧ tensors2 ≠ [] ∧ tensors3 ≠ []) ∧
        tensors1.length = tensors2.length ∧ tensors1.length = tensors3.length ∧
        tensors2.length = tensors3.length) → ∃ msg,
      check_foreach_api_restrictions3 tensors1 tensors2 tensors3 =
        Except.error (Error.torch_check msg)) := by
  rw [check1_eq, check2_eq, check3_eq]
  refine ⟨?_, ?_, ?_, ?_, ?_, ?_⟩
  · cases tensors1 <;> simp
  · cases tensors1 <;> cases tensors2 <;> simp
  · cases tensors1 <;> cases tensors2 <;> cases tensors3 <;> simp
    split_ifs <;> simp <;> omega
  · intro h
    simp [h]
  · cases tensors1 <;> cases tensors2 <;> simp
    intro h
    simp [h]
  · cases tensors1 <;> cases tensors2 <;> cases tensors3 <;> simp
    intro h
    split_ifs <;> simp
    omega

/-- Claim C3: the overloads taking a scalar list (one tensor list with scalars, three
tensor lists with scalars) complete without error exactly when the tensor lists are
all non-empty and of one length and the scalar list has that length; otherwise they
fail. In particular one scalar with tensor lists of length above 1 is rejected. -/
theorem scalar_list_overloads_succeed_iff (tensors1 tensors2 tensors3 : List (Tensor α))
    (scalars : List σ) :
    (check_foreach_api_restrictions_scalars tensors1 scalars = Except.ok () ↔
      check_foreach_api_restrictions tensors1 = Except.ok () ∧
        scalars.length = tensors1.length) ∧
    (check_foreach_api_restrictions_scalars tensors1 scalars = Except.ok () ↔
      tensors1 ≠ [] ∧ scalars.length = tensors1.length) ∧
    (check_foreach_api_restrictions3_scalars tensors1 tensors2 tensors3 scalars =
        Except.ok () ↔
      check_foreach_api_restrictions3 tensors1 tensors2 tensors3 = Except.ok () ∧
        scalars.length = tensors1.length) ∧
    (check_foreach_api_restrictions3_scalars tensors1 tensors2 tensors3 scalars =
        Except.ok () ↔
      (tensors1 ≠ [] ∧ tensors2 ≠ [] ∧ tensors3 ≠ []) ∧
        (tensors1.length = tensors2.length ∧ tensors1.length = tensors3.length) ∧
        scalars.length = tensors1.length) ∧
    (check_foreach_api_restrictions_scalars tensors1 scalars ≠ Except.ok () → ∃ msg,
      check_foreach_api_restrictions_scalars tensors1 scalars =
        Except.error (Error.torch_check msg)) ∧
    (check_foreach_api_restrictions3_scalars tensors1 tensors2 tensors3 scalars ≠
        Except.ok () → ∃ msg,
      check_foreach_api_restrictions3_scalars tensors1 tensors2 tensors3 scalars =
        Except.error (Error.torch_check msg)) ∧
    (scalars.length = 1 → 1 < tensors1.length →
      (∃ msg, check_foreach_api_restrictions_scalars tensors1 scalars =
        Except.error (Error.torch_check msg)) ∧
      (∃ msg, check_foreach_api_restrictions3_scalars tensors1 tensors2 tensors3 scalars =
        Except.error (Error.torch_check msg))) := by
  rw [check3_scalars_eq, check1_scalars_eq, check3_eq, check1_eq]
  refine ⟨?_, ?_, ?_, ?_, ?_, ?_, ?_⟩
  · cases tensors1 <;> simp
    omega
  · cases tensors1 <;> simp
    omega
  · cases tensors1 <;> cases tensors2 <;> cases tensors3 <;> simp
    split_ifs <;> simp <;> omega
  · cases tensors1 <;> cases tensors2 <;> cases tensors3 <;> simp
    split_ifs <;> simp <;> omega
  · cases tensors1 <;> simp
    split_ifs <;> simp_all
  · cases tensors1 <;> cases tensors2 <;> cases tensors3 <;> simp
    split_ifs <;> simp
  · intro hs hl
    cases tensors1 with
    | nil => simp at hl
    | cons a as =>
      have hne : ¬ as.length + 1 = scalars.length := by
        simp only [List.length_cons] at hl
        omega
      refine ⟨by simp [hne], ?_⟩
      cases tensors2 <;> cases tensors3 <;> simp
      split_ifs <;> simp

/-- Claim C3 at a concrete input: one scalar with a tensor list of two tensors is
rejected by both scalar-list overloads. -/
theorem scalar_list_overloads_witness :
    (∃ msg, check_foreach_api_restrictions_scalars [float_vec3, float_vec3] [(7 : Int)] =
      Except.error (Error.torch_check msg)) ∧
    (∃ msg, check_foreach_api_restrictions3_scalars [float_vec3, float_vec3]
        [float_vec3, float_vec3] [float_vec3, float_vec3] [(7 : Int)] =
      Except.error (Error.torch_check msg)) :=
  (scalar_list_overloads_succeed_iff [float_vec3, float_vec3] [float_vec3, float_vec3]
    [float_vec3, float_vec3] [(7 : Int)]).2.2.2.2.2.2 rfl (by decide)

/-- Claim C9: for two non-empty tensor lists of different lengths `m` and `n` the
two-list overload fails with the message "Tensor lists must have the same number of
tensors, got m and n" (ending in "got 3 and 2" for lengths 3 and 2); with a non-empty
third list the three-list overload fails with the same message, naming the first
list's length and the length of the first later list that differs from it. -/
theorem length_mismatch_names_both_lengths (tensors1 tensors2 tensors3 : List (Tensor α))
    (h1 : tensors1 ≠ []) (h2 : tensors2 ≠ []) :
    (tensors1.length ≠ tensors2.length →
      check_foreach_api_restrictions2 tensors1 tensors2 = Except.error (Error.torch_check
        ("Tensor lists must have the same number of tensors, got " ++
          toString tensors1.length ++ " and " ++ toString tensors2.length))) ∧
    (tensors1.length = 3 → tensors2.length = 2 →
      check_foreach_api_restrictions2 tensors1 tensors2 = Except.error (Error.torch_check
        ("Tensor lists must have the same number of tensors, " ++ "got 3 and 2"))) ∧
    (tensors3 ≠ [] → tensors1.length ≠ tensors2.length →
      check_foreach_api_restrictions3 tensors1 tensors2 tensors3 =
        Except.error (Error.torch_check
          ("Tensor lists must have the same number of tensors, got " ++
            toString tensors1.length ++ " and " ++ toString tensors2.length))) ∧
    (tensors3 ≠ [] → tensors1.length = tensors2.length →
      tensors1.length ≠ tensors3.length →
      check_foreach_api_restrictions3 tensors1 tensors2 tensors3 =
        Except.error (Error.torch_check
          ("Tensor lists must have the same number of tensors, got " ++
            toString tensors1.length ++ " and " ++ toString tensors3.length))) := by
  rw [check2_eq, check3_eq]
  have e1 : tensors1.isEmpty = false := by cases tensors1 <;> simp_all
  have e2 : tensors2.isEmpty = false := by cases tensors2 <;> simp_all
  refine ⟨?_, ?_, ?_, ?_⟩
  · intro h
    simp [e1, e2, h, tensor_mismatch_message]
  · intro h3 h4
    simp [e1, e2, h3, h4, tensor_mismatch_message]
    rfl
  · intro h3 h
    have e3 : tensors3.isEmpty = false := by cases tensors3 <;> simp_all
    simp [e1, e2, e3, h, tensor_mismatch_message]
  · intro h3 h h'
    have e3 : tensors3.isEmpty = false := by cases tensors3 <;> simp_all
    have h'' : tensors2.length ≠ tensors3.length := h ▸ h'
    simp [e1, e2, e3, h, h'', tensor_mismatch_message]

/-- Claim C9 at a concrete input: lists of three and of two tensors. -/
theorem length_mismatch_witness :
    check_foreach_api_restrictions2 [float_vec3, float_vec3, float_vec3]
        [float_vec3, float_vec3] =
      Except.error (Error.torch_check
        ("Tensor lists must have the same number of tensors, " ++ "got 3 and 2")) :=
  (length_mismatch_names_both_lengths [float_vec3, float_vec3, float_vec3]
    [float_vec3, float_vec3] [float_vec3] (by simp) (by simp)).2.1 rfl rfl

/-- Claim C10 as stated fails for the one-list overload: its message is the same fixed
sentence for the length pairs (1, 2) and (3, 4), so no reading of the message recovers
both lengths of every mismatching call. -/
theorem one_list_scalar_message_omits_lengths :
    check_foreach_api_restrictions_scalars [float_vec3] [(1 : Int), 2] =
      Except.error (Error.torch_check
        "Tensor list must have same number of elements as scalar list.") ∧
    check_foreach_api_restrictions_scalars [float_vec3, float_vec3, float_vec3]
        [(1 : Int), 2, 3, 4] =
      Except.error (Error.torch_check
        "Tensor list must have same number of elements as scalar list.") ∧
    ¬ ∃ lengths_of : String → Nat × Nat,
      ∀ (tensors : List (Tensor Nat)) (scalars : List Int),
        tensors ≠ [] → tensors.length ≠ scalars.length →
        ∃ msg, check_foreach_api_restrictions_scalars tensors scalars =
            Except.error (Error.torch_check msg) ∧
          lengths_of msg = (tensors.length, scalars.length) := by
  refine ⟨rfl, rfl, ?_⟩
  rintro ⟨lengths_of, h⟩
  obtain ⟨m1, e1, l1⟩ := h [float_vec3] [1, 2] (by simp) (by decide)
  obtain ⟨m2, e2, l2⟩ := h [float_vec3, float_vec3, float_vec3] [1, 2, 3, 4]
    (by simp) (by decide)
  rw [check1_scalars_eq] at e1 e2
  simp at e1 e2
  rw [← e1] at l1
  rw [← e2, l1] at l2
  simp at l2

/-- Claim C10, amended: when the tensor lists are non-empty and of one length and the
scalar list has another length, the three-list overload fails with "Tensor list must
have same number of elements as scalar list, got m and n" (m the tensor-list length,
n the scalar-list length), and the one-list overload fails with the fixed message
"Tensor list must have same number of elements as scalar list.". -/
theorem scalar_mismatch_messages (tensors1 tensors2 tensors3 : List (Tensor α))
    (scalars : List σ) (h1 : tensors1 ≠ [])
    (hs : tensors1.length ≠ scalars.length) :
    check_foreach_api_restrictions_scalars tensors1 scalars =
      Except.error (Error.torch_check
        "Tensor list must have same number of elements as scalar list.") ∧
    (tensors2 ≠ [] → tensors3 ≠ [] → tensors1.length = tensors2.length →
      tensors1.length = tensors3.length →
      check_foreach_api_restrictions3_scalars tensors1 tensors2 tensors3 scalars =
        Except.error (Error.torch_check
          ("Tensor list must have same number of elements as scalar list, got " ++
            toString tensors1.length ++ " and " ++ toString scalars.length))) := by
  rw [check3_scalars_eq, check1_scalars_eq, check3_eq]
  have e1 : tensors1.isEmpty = false := by cases tensors1 <;> simp_all
  refine ⟨by simp [e1, hs, scalar_mismatch_message_fixed], ?_⟩
  intro h2 h3 h12 h13
  have e2 : tensors2.isEmpty = false := by cases tensors2 <;> simp_all
  have e3 : tensors3.isEmpty = false := by cases tensors3 <;> simp_all
  have h23 : tensors2.length = tensors3.length := h12 ▸ h13
  have hs3 : ¬ tensors3.length = scalars.length := h13 ▸ hs
  simp [e1, e2, e3, h12, h23, hs3, scalar_mismatch_message]

/-- Claim C10 (amended) at a concrete input: tensor lists of two tensors with a scalar
list of three scalars. -/
theorem scalar_mismatch_messages_witness :
    check_foreach_api_restrictions_scalars [float_vec3, float_vec3] [(1 : Int), 2, 3] =
      Except.error (Error.torch_check
        "Tensor list must have same number of elements as scalar list.") ∧
    check_foreach_api_restrictions3_scalars [float_vec3, float_vec3]
        [float_vec3, float_vec3] [float_vec3, float_vec3] [(1 : Int), 2, 3] =
      Except.error (Error.torch_check
        ("Tensor list must have same number of elements as scalar list, got " ++
          toString 2 ++ " and " ++ toString 3)) :=
  have h := scalar_mismatch_messages [float_vec3, float_vec3] [float_vec3, float_vec3]
    [float_vec3, float_vec3] [(1 : Int), 2, 3] (by simp) (by decide)
  ⟨h.1, h.2 (by simp) (by simp) rfl rfl⟩

end ValidatorProofs

/-! ## Properties of the fast-path eligibility checker -/

section CheckerProofs

variable {α σ : Type}

theorem index_eq_ok {β : Type} {xs : List β} {i : Nat} {x : β} (h : xs[i]? = some x) :
    index xs i = Except.ok x := by
  simp [index, h]

theorem index_of_lt {β : Type} (xs : List β) (i : Nat) (h : i < xs.length) :
    ∃ x, xs[i]? = some x ∧ index xs i = Except.ok x := by
  refine ⟨xs[i], ?_, ?_⟩
  · simp [h]
  · simp [index, h]

theorem is_tensor_okay_iff (expected_dtype : ScalarType) (expected_device : Device)
    (tensor : Tensor α) :
    is_tensor_okay expected_dtype expected_device tensor = true ↔
      tensor.scalar_type = expected_dtype ∧ tensor.device = expected_device ∧
        tensor.layout = kStrided ∧ tensor.is_non_overlapping_and_dense = true := by
  simp [is_tensor_okay, and_assoc]

theorem all_tensors_okay_iff (expected_dtype : ScalarType) (expected_device : Device)
    (tensorLists : List (List (Tensor α))) :
    all_tensors_okay expected_dtype expected_device tensorLists = true ↔
      ∀ tensorList ∈ tensorLists, ∀ tensor ∈ tensorList,
        tensor.scalar_type = expected_dtype ∧ tensor.device = expected_device ∧
          tensor.layout = kStrided ∧ tensor.is_non_overlapping_and_dense = true := by
  simp [all_tensors_okay, is_tensor_okay_iff]

theorem same_sizes_strides_at_spec (first tensor_list : List (Tensor α)) (js : List Nat)
    (hjs : ∀ j ∈ js, j < first.length ∧ j < tensor_list.length) :
    ∃ b, same_sizes_strides_at first tensor_list js = Except.ok b ∧
      (b = true ↔ ∀ j ∈ js, SameGeometryAt first tensor_list j) := by
  induction js with
  | nil => exact ⟨true, rfl, by simp⟩
  | cons j js ih =>
    obtain ⟨hj1, hj2⟩ := hjs j (List.mem_cons_self j js)
    obtain ⟨b, hb, hbiff⟩ := ih fun k hk => hjs k (List.mem_cons_of_mem j hk)
    obtain ⟨x, hx, ex⟩ := index_of_lt first j hj1
    obtain ⟨y, hy, ey⟩ := index_of_lt tensor_list j hj2
    have hgeo : SameGeometryAt first tensor_list j ↔
        x.sizes = y.sizes ∧ x.strides = y.strides := by
      constructor
      · rintro ⟨x', y', hx', hy', hs⟩
        rw [hx] at hx'
        rw [hy] at hy'
        cases hx'
        cases hy'
        exact hs
      · intro hs
        exact ⟨x, y, hx, hy, hs⟩
    simp only [same_sizes_strides_at, ex, ey]
    by_cases h1 : x.sizes = y.sizes
    · by_cases h2 : x.strides = y.strides
      · refine ⟨b, by simp [h1, h2, hb], ?_⟩
        simp [hbiff, hgeo, h1, h2]
      · refine ⟨false, by simp [h1, h2], ?_⟩
        simp [hgeo, h2]
    · refine ⟨false, by simp [h1], ?_⟩
      simp [hgeo, h1]

theorem same_sizes_strides_spec (first : List (Tensor α))
    (lists : List (List (Tensor α)))
    (hlen : ∀ l ∈ lists, first.length ≤ l.length) :
    ∃ b, same_sizes_strides first lists = Except.ok b ∧
      (b = true ↔ ∀ l ∈ lists, ∀ j < first.length, SameGeometryAt first l j) := by
  induction lists with
  | nil => exact ⟨true, rfl, by simp⟩
  | cons l rest ih =>
    obtain ⟨b, hb, hbiff⟩ := ih fun k hk => hlen k (List.mem_cons_of_mem l hk)
    have hl := hlen l (List.mem_cons_self l rest)
    obtain ⟨c, hc, hciff⟩ := same_sizes_strides_at_spec first l (List.range first.length)
      (fun j hj => by
        have := List.mem_range.mp hj
        exact ⟨this, by omega⟩)
    simp only [List.mem_range] at hciff
    simp only [same_sizes_strides, hc]
    cases c with
    | false =>
      refine ⟨false, rfl, ?_⟩
      simp only [List.mem_cons, forall_eq_or_imp]
      simp at hciff
      simp
      intro h
      exact absurd h (by simpa using hciff)
    | true =>
      refine ⟨b, hb, ?_⟩
      simp only [List.mem_cons, forall_eq_or_imp, hbiff]
      simp at hciff
      exact ⟨fun h => ⟨hciff, h⟩, fun h => h.2⟩

theorem not_integral_at_spec (first : List (Tensor α)) (i : Nat) (hi : i < first.length) :
    ∃ b, not_integral_at first i = Except.ok b ∧
      (b = true ↔ ∃ t, first[i]? = some t ∧ isIntegralType t.scalar_type true = false) := by
  obtain ⟨t, ht, et⟩ := index_of_lt first i hi
  simp only [not_integral_at, et, ht]
  cases h : isIntegralType t.scalar_type true with
  | false => exact ⟨true, by simp, by simp [h]⟩
  | true => exact ⟨false, by simp, by simp [h]⟩

theorem selected_scalar_eq (scalarList : List σ) (i : Nat) (s : σ)
    (h : selected_scalar scalarList i = some s) :
    (if scalarList.length == 1 then index scalarList 0 else index scalarList i) =
      Except.ok s := by
  unfold selected_scalar at h
  by_cases h1 : scalarList.length = 1
  · simp only [h1, if_true] at h
    simp [h1, index_eq_ok h]
  · simp only [h1, if_false] at h
    simp [h1, index_eq_ok h]

theorem selected_scalar_of_valid (scalarList : List σ) (i : Nat)
    (h : scalarList.length = 1 ∨ i < scalarList.length) :
    ∃ s, selected_scalar scalarList i = some s := by
  unfold selected_scalar
  by_cases h1 : scalarList.length = 1
  · simp only [h1, if_true]
    exact ⟨scalarList[0], by simp [h1]⟩
  · simp only [h1, if_false]
    have hi : i < scalarList.length := by
      rcases h with h | h
      · exact absurd h h1
      · exact h
    exact ⟨scalarList[i], by simp [hi]⟩

theorem scalar_keeps_dtype_spec (result_type : σ → Tensor α → ScalarType)
    (first : List (Tensor α)) (scalarList : List σ) (i : Nat) (hi : i < first.length)
    (hs : scalarList.length = 1 ∨ i < scalarList.length) :
    ∃ b, scalar_keeps_dtype result_type first scalarList i = Except.ok b ∧
      (b = true ↔ ∃ s t, selected_scalar scalarList i = some s ∧ first[i]? = some t ∧
        result_type s t = t.scalar_type) := by
  obtain ⟨t, ht, et⟩ := index_of_lt first i hi
  obtain ⟨s, hsel⟩ := selected_scalar_of_valid scalarList i hs
  simp only [scalar_keeps_dtype, selected_scalar_eq scalarList i s hsel, et, hsel, ht]
  by_cases h : result_type s t = t.scalar_type
  · exact ⟨true, by simp [h], by simp [h]⟩
  · refine ⟨false, ?_, by simp [h]⟩
    have h2 : ¬ t.scalar_type = result_type s t := fun e => h e.symm
    simp [h2]

/-- What the per-position loop checks at position `i`. -/
theorem promotion_loop_spec (result_type : σ → Tensor α → ScalarType)
    (first : List (Tensor α)) (scalarList : List σ) (flag : Bool) (positions : List Nat)
    (hpos : ∀ i ∈ positions, i < first.length ∧
      (scalarList.length = 0 ∨ scalarList.length = 1 ∨ i < scalarList.length)) :
    ∃ b, promotion_loop result_type first scalarList flag positions = Except.ok b ∧
      (b = true ↔ ∀ i ∈ positions,
        (flag = true →
          ∃ t, first[i]? = some t ∧ isIntegralType t.scalar_type true = false) ∧
        (scalarList ≠ [] →
          ∃ s t, selected_scalar scalarList i = some s ∧ first[i]? = some t ∧
            result_type s t = t.scalar_type)) := by
  induction positions with
  | nil => exact ⟨true, rfl, by simp⟩
  | cons i rest ih =>
    obtain ⟨hi, hsl⟩ := hpos i (List.mem_cons_self i rest)
    obtain ⟨b, hb, hbiff⟩ := ih fun k hk => hpos k (List.mem_cons_of_mem i hk)
    -- the integer-promotion check of position i
    have hflag : ∃ c, (if flag then not_integral_at first i else Except.ok true) =
          Except.ok c ∧
        (c = true ↔ (flag = true →
          ∃ t, first[i]? = some t ∧ isIntegralType t.scalar_type true = false)) := by
      cases flag with
      | false => exact ⟨true, by simp, by simp⟩
      | true =>
        obtain ⟨c, hc, hciff⟩ := not_integral_at_spec first i hi
        exact ⟨c, by simpa using hc, by simpa using hciff⟩
    -- the scalar check of position i
    have hscalar : ∃ c, (if !scalarList.isEmpty then
            scalar_keeps_dtype result_type first scalarList i else Except.ok true) =
          Except.ok c ∧
        (c = true ↔ (scalarList ≠ [] →
          ∃ s t, selected_scalar scalarList i = some s ∧ first[i]? = some t ∧
            result_type s t = t.scalar_type)) := by
      cases hsc : scalarList with
      | nil => exact ⟨true, by simp, by simp⟩
      | cons s0 ss =>
        have hs : scalarList.length = 1 ∨ i < scalarList.length := by
          rcases hsl with h | h | h
          · simp [hsc] at h
          · exact Or.inl h
          · exact Or.inr h
        obtain ⟨c, hc, hciff⟩ := scalar_keeps_dtype_spec result_type first scalarList i hi hs
        rw [hsc] at hc hciff
        exact ⟨c, by simpa using hc, by simpa using hciff⟩
    obtain ⟨c1, hc1, hc1iff⟩ := hflag
    obtain ⟨c2, hc2, hc2iff⟩ := hscalar
    simp only [promotion_loop, hc1]
    simp only [List.mem_cons, forall_eq_or_imp]
    cases c1 with
    | false =>
      refine ⟨false, rfl, ?_⟩
      have hn := hc1iff.not.mp (by simp)
      constructor
      · intro h
        cases h
      · intro h
        exact absurd h.1.1 hn
    | true =>
      have hp := hc1iff.mp rfl
      simp only [hc2]
      cases c2 with
      | false =>
        refine ⟨false, rfl, ?_⟩
        have hn := hc2iff.not.mp (by simp)
        constructor
        · intro h
          cases h
        · intro h
          exact absurd h.1.2 hn
      | true =>
        have hq := hc2iff.mp rfl
        refine ⟨b, hb, ?_⟩
        rw [hbiff]
        exact ⟨fun h => ⟨⟨hp, hq⟩, h⟩, fun h => h.2⟩

theorem first_length_of_valid {tensorLists : List (List (Tensor α))} {scalarList : List σ}
    {L : Nat} {first : List (Tensor α)} (hv : StructurallyValid tensorLists scalarList L)
    (h0 : tensorLists[0]? = some first) : first.length = L :=
  hv.2.2.1 first (List.getElem?_mem h0)

theorem exists_first_of_valid {tensorLists : List (List (Tensor α))} {scalarList : List σ}
    {L : Nat} (hv : StructurallyValid tensorLists scalarList L) :
    ∃ first t00, tensorLists[0]? = some first ∧ first[0]? = some t00 := by
  obtain ⟨first, h0, -⟩ := index_of_lt tensorLists 0 hv.1
  have hL := first_length_of_valid hv h0
  obtain ⟨t00, h00, -⟩ := index_of_lt first 0 (by have := hv.2.1; omega)
  exact ⟨first, t00, h0, h00⟩

/-- The verdict of the checker on structurally valid input, loop by loop. -/
theorem check_fast_path_restrictions_spec (result_type : σ → Tensor α → ScalarType)
    (tensorLists : List (List (Tensor α))) (scalarList : List σ) (flag : Bool) (L : Nat)
    (first : List (Tensor α)) (t00 : Tensor α)
    (hv : StructurallyValid tensorLists scalarList L)
    (h0 : tensorLists[0]? = some first) (h00 : first[0]? = some t00) :
    ∃ b, check_fast_path_restrictions result_type tensorLists scalarList flag =
        Except.ok b ∧
      (b = true ↔
        (∀ tensorList ∈ tensorLists, ∀ tensor ∈ tensorList,
          tensor.scalar_type = t00.scalar_type ∧ tensor.device = t00.device ∧
            tensor.layout = kStrided ∧ tensor.is_non_overlapping_and_dense = true) ∧
        (∀ tensorList ∈ tensorLists, ∀ j < L, SameGeometryAt first tensorList j) ∧
        (∀ i < L,
          (flag = true →
            ∃ t, first[i]? = some t ∧ isIntegralType t.scalar_type true = false) ∧
          (scalarList ≠ [] →
            ∃ s t, selected_scalar scalarList i = some s ∧ first[i]? = some t ∧
              result_type s t = t.scalar_type))) := by
  have hL := first_length_of_valid hv h0
  obtain ⟨b2, hb2, hb2iff⟩ := same_sizes_strides_spec first tensorLists
    (fun l hl => by rw [hL, hv.2.2.1 l hl])
  obtain ⟨b3, hb3, hb3iff⟩ := promotion_loop_spec result_type first scalarList flag
    (List.range first.length) (fun i hi => by
      have hi := List.mem_range.mp hi
      refine ⟨hi, ?_⟩
      rcases hv.2.2.2 with h | h | h
      · exact Or.inl h
      · exact Or.inr (Or.inl h)
      · exact Or.inr (Or.inr (by omega)))
  simp only [List.mem_range, hL] at hb2iff hb3iff
  simp only [check_fast_path_restrictions, index_eq_ok h0, index_eq_ok h00, hb2, hb3]
  rw [← all_tensors_okay_iff, ← hb2iff, ← hb3iff]
  cases all_tensors_okay t00.scalar_type t00.device tensorLists with
  | false => exact ⟨false, by simp, by simp⟩
  | true =>
    cases b2 with
    | false => exact ⟨false, by simp, by simp⟩
    | true =>
      cases b3 with
      | false => exact ⟨false, by simp, by simp⟩
      | true => exact ⟨true, by simp, by simp⟩

/-- Claim C1: on structurally valid input (a non-empty sequence of tensor lists of one
length `L ≥ 1`, a scalar list of length 0, 1 or `L`, any flag), with `first` the first
list and `t00` its first tensor, `check_fast_path_restrictions` returns `true` if and
only if (1) every tensor of every list has the dtype and device of `t00`, strided
layout and is non-overlapping-and-dense, (2) every list agrees with the first list in
sizes and strides at every position below `L`, (3) with the flag set no tensor of the
first list is integral (Bool included), and (4) with a non-empty scalar list the
result type of the selected scalar with `first[i]` is the dtype of `first[i]` at every
position; it returns `false` if and only if one of the four fails. -/
theorem check_fast_path_restrictions_true_iff (result_type : σ → Tensor α → ScalarType)
    (tensorLists : List (List (Tensor α))) (scalarList : List σ) (flag : Bool) (L : Nat)
    (first : List (Tensor α)) (t00 : Tensor α)
    (hv : StructurallyValid tensorLists scalarList L)
    (h0 : tensorLists[0]? = some first) (h00 : first[0]? = some t00) :
    (check_fast_path_restrictions result_type tensorLists scalarList flag =
        Except.ok true ↔
      (∀ tensorList ∈ tensorLists, ∀ tensor ∈ tensorList,
        tensor.scalar_type = t00.scalar_type ∧ tensor.device = t00.device ∧
          tensor.layout = kStrided ∧ tensor.is_non_overlapping_and_dense = true) ∧
      (∀ tensorList ∈ tensorLists, ∀ j < L, SameGeometryAt first tensorList j) ∧
      (flag = true → ∀ t ∈ first, isIntegralType t.scalar_type true = false) ∧
      (scalarList ≠ [] → ∀ i < L,
        ∃ s t, selected_scalar scalarList i = some s ∧ first[i]? = some t ∧
          result_type s t = t.scalar_type)) ∧
    (check_fast_path_restrictions result_type tensorLists scalarList flag =
        Except.ok false ↔
      ¬ ((∀ tensorList ∈ tensorLists, ∀ tensor ∈ tensorList,
        tensor.scalar_type = t00.scalar_type ∧ tensor.device = t00.device ∧
          tensor.layout = kStrided ∧ tensor.is_non_overlapping_and_dense = true) ∧
      (∀ tensorList ∈ tensorLists, ∀ j < L, SameGeometryAt first tensorList j) ∧
      (flag = true → ∀ t ∈ first, isIntegralType t.scalar_type true = false) ∧
      (scalarList ≠ [] → ∀ i < L,
        ∃ s t, selected_scalar scalarList i = some s ∧ first[i]? = some t ∧
          result_type s t = t.scalar_type))) := by
  have hL := first_length_of_valid hv h0
  obtain ⟨b, hb, hbiff⟩ := check_fast_path_restrictions_spec result_type tensorLists
    scalarList flag L first t00 hv h0 h00
  have hpos : (∀ i < L,
        (flag = true →
          ∃ t, first[i]? = some t ∧ isIntegralType t.scalar_type true = false) ∧
        (scalarList ≠ [] →
          ∃ s t, selected_scalar scalarList i = some s ∧ first[i]? = some t ∧
            result_type s t = t.scalar_type)) ↔
      ((flag = true → ∀ t ∈ first, isIntegralType t.scalar_type true = false) ∧
        (scalarList ≠ [] → ∀ i < L,
          ∃ s t, selected_scalar scalarList i = some s ∧ first[i]? = some t ∧
            result_type s t = t.scalar_type)) := by
    constructor
    · intro h
      refine ⟨fun hf t ht => ?_, fun hs i hi => (h i hi).2 hs⟩
      obtain ⟨i, hi, hit⟩ := List.getElem_of_mem ht
      obtain ⟨t', ht', hint⟩ := (h i (hL ▸ hi)).1 hf
      rw [List.getElem?_eq_getElem hi, hit] at ht'
      cases ht'
      exact hint
    · intro h i hi
      refine ⟨fun hf => ?_, fun hs => h.2 hs i hi⟩
      have hi' : i < first.length := hL ▸ hi
      exact ⟨first[i], List.getElem?_eq_getElem hi', h.1 hf _ (List.getElem_mem hi')⟩
  rw [hpos] at hbiff
  rw [hb, ← hbiff]
  cases b <;> simp

/-- Claim C7: on structurally valid input `check_fast_path_restrictions` never raises:
no index it evaluates is out of bounds, and it returns a boolean. -/
theorem check_fast_path_restrictions_total (result_type : σ → Tensor α → ScalarType)
    (tensorLists : List (List (Tensor α))) (scalarList : List σ) (flag : Bool) (L : Nat)
    (hv : StructurallyValid tensorLists scalarList L) :
    (∃ b, check_fast_path_restrictions result_type tensorLists scalarList flag =
      Except.ok b) ∧
    check_fast_path_restrictions result_type tensorLists scalarList flag ≠
      Except.error Error.out_of_bounds := by
  obtain ⟨first, t00, h0, h00⟩ := exists_first_of_valid hv
  obtain ⟨b, hb, -⟩ := check_fast_path_restrictions_spec result_type tensorLists
    scalarList flag L first t00 hv h0 h00
  exact ⟨⟨b, hb⟩, by simp [hb]⟩

/-- Claim C1 at a concrete input: two parallel float32 lists, one integer scalar and the
promotion flag set are eligible, and the lists agree in sizes and strides. -/
theorem check_fast_path_restrictions_true_iff_witness :
    StructurallyValid sample_lists [false] 2 ∧
    check_fast_path_restrictions sample_result_type sample_lists [false] true =
      Except.ok true ∧
    (∀ tensorList ∈ sample_lists, ∀ j < 2,
      SameGeometryAt [float_vec3, float_mat23] tensorList j) :=
  ⟨by decide, rfl,
    ((check_fast_path_restrictions_true_iff sample_result_type sample_lists [false] true 2
      [float_vec3, float_mat23] float_vec3 (by decide) rfl rfl).1.mp rfl).2.1⟩

/-- Claim C7 at a concrete input: two parallel lists of length 2 and two scalars. -/
theorem check_fast_path_restrictions_total_witness :
    ∃ b, check_fast_path_restrictions sample_result_type sample_lists [true, false] false =
      Except.ok b :=
  (check_fast_path_restrictions_total sample_result_type sample_lists [true, false] false 2
    (by decide)).1

theorem SameGeometryAt.trans_left {a b c : List (Tensor α)} {j : Nat}
    (hab : SameGeometryAt a b j) (hac : SameGeometryAt a c j) : SameGeometryAt b c j := by
  obtain ⟨x, y, hx, hy, hs1, hs2⟩ := hab
  obtain ⟨x', z, hx', hz, ht1, ht2⟩ := hac
  rw [hx] at hx'
  cases hx'
  exact ⟨y, z, hy, hz, hs1.symm.trans ht1, hs2.symm.trans ht2⟩

/-- Claim C8: when `check_fast_path_restrictions` returns `true` on structurally valid
input, any two tensors of any lists and positions have the same dtype and the same
device, every tensor is strided and non-overlapping-and-dense, and any two lists agree
in sizes and strides at every position below `L`. -/
theorem fast_path_implies_uniform (result_type : σ → Tensor α → ScalarType)
    (tensorLists : List (List (Tensor α))) (scalarList : List σ) (flag : Bool) (L : Nat)
    (hv : StructurallyValid tensorLists scalarList L)
    (htrue : check_fast_path_restrictions result_type tensorLists scalarList flag =
      Except.ok true) :
    (∀ list1 ∈ tensorLists, ∀ list2 ∈ tensorLists, ∀ a ∈ list1, ∀ b ∈ list2,
      a.scalar_type = b.scalar_type ∧ a.device = b.device) ∧
    (∀ tensorList ∈ tensorLists, ∀ tensor ∈ tensorList,
      tensor.layout = kStrided ∧ tensor.is_non_overlapping_and_dense = true) ∧
    (∀ list1 ∈ tensorLists, ∀ list2 ∈ tensorLists, ∀ j < L,
      SameGeometryAt list1 list2 j) := by
  obtain ⟨first, t00, h0, h00⟩ := exists_first_of_valid hv
  obtain ⟨b, hb, hbiff⟩ := check_fast_path_restrictions_spec result_type tensorLists
    scalarList flag L first t00 hv h0 h00
  rw [hb] at htrue
  cases htrue
  obtain ⟨hok, hgeo, -⟩ := hbiff.mp rfl
  refine ⟨fun l1 h1 l2 h2 a ha b hb => ?_, fun l hl t ht => ?_, fun l1 h1 l2 h2 j hj => ?_⟩
  · obtain ⟨hd1, hv1, -⟩ := hok l1 h1 a ha
    obtain ⟨hd2, hv2, -⟩ := hok l2 h2 b hb
    exact ⟨hd1.trans hd2.symm, hv1.trans hv2.symm⟩
  · exact (hok l hl t ht).2.2
  · exact (hgeo l1 h1 j hj).trans_left (hgeo l2 h2 j hj)

/-- Claim C8 at a concrete input: the two sample lists are eligible, hence uniform. -/
theorem fast_path_implies_uniform_witness :
    check_fast_path_restrictions sample_result_type sample_lists [false] true =
      Except.ok true ∧
    (∀ list1 ∈ sample_lists, ∀ list2 ∈ sample_lists, ∀ j < 2,
      SameGeometryAt list1 list2 j) :=
  ⟨rfl, (fast_path_implies_uniform sample_result_type sample_lists [false] true 2
    (by decide) rfl).2.2⟩

/-- Claim C11: on structurally valid input with the integer-promotion flag set, if some
tensor of some list has an integral dtype (Bool included), and in particular if every
tensor is boolean, `check_fast_path_restrictions` returns `false`, whatever the
scalar list and the other tensor properties are. -/
theorem integral_tensor_blocks_fast_path (result_type : σ → Tensor α → ScalarType)
    (tensorLists : List (List (Tensor α))) (scalarList : List σ) (L : Nat)
    (hv : StructurallyValid tensorLists scalarList L) :
    ((∃ tensorList ∈ tensorLists, ∃ t ∈ tensorList,
        isIntegralType t.scalar_type true = true) →
      check_fast_path_restrictions result_type tensorLists scalarList true =
        Except.ok false) ∧
    ((∀ tensorList ∈ tensorLists, ∀ t ∈ tensorList, t.scalar_type = ScalarType.Bool) →
      check_fast_path_restrictions result_type tensorLists scalarList true =
        Except.ok false) := by
  obtain ⟨first, t00, h0, h00⟩ := exists_first_of_valid hv
  obtain ⟨b, hb, hbiff⟩ := check_fast_path_restrictions_spec result_type tensorLists
    scalarList true L first t00 hv h0 h00
  have key : (∃ tensorList ∈ tensorLists, ∃ t ∈ tensorList,
      isIntegralType t.scalar_type true = true) →
      check_fast_path_restrictions result_type tensorLists scalarList true =
        Except.ok false := by
    rintro ⟨tl, htl, t, ht, hint⟩
    rw [hb]
    cases b with
    | false => rfl
    | true =>
      exfalso
      obtain ⟨hok, -, hpos⟩ := hbiff.mp rfl
      obtain ⟨t', ht', hnot⟩ := (hpos 0 hv.2.1).1 rfl
      rw [h00] at ht'
      cases ht'
      rw [(hok tl htl t ht).1, hnot] at hint
      cases hint
  refine ⟨key, fun hall => key ?_⟩
  exact ⟨first, List.getElem?_mem h0, t00, List.getElem?_mem h00, by
    rw [hall first (List.getElem?_mem h0) t00 (List.getElem?_mem h00)]
    rfl⟩

/-- Claim C11 at a concrete input: one all-boolean list, no scalars, flag set. -/
theorem integral_tensor_blocks_fast_path_witness :
    check_fast_path_restrictions sample_result_type [[bool_vec3, bool_vec3]] [] true =
      Except.ok false :=
  (integral_tensor_blocks_fast_path sample_result_type [[bool_vec3, bool_vec3]] [] 2
    (by decide)).2 (by decide)

/-- Claim C12 as stated fails: a lone strided-slice tensor that is not dense, with a
promotion-stable scalar, is not eligible; neither is a lone int32 tensor with a
promotion-stable integer scalar once the integer-promotion flag is set. -/
theorem single_tensor_stable_scalar_not_eligible :
    (sample_result_type false float_every_second = float_every_second.scalar_type ∧
      check_fast_path_restrictions sample_result_type [[float_every_second]] [false]
        false = Except.ok false) ∧
    (sample_result_type false int_vec3 = int_vec3.scalar_type ∧
      check_fast_path_restrictions sample_result_type [[int_vec3]] [false] true =
        Except.ok false) :=
  ⟨⟨rfl, rfl⟩, ⟨rfl, rfl⟩⟩

/-- Claim C12, amended: a call with a single tensor list holding a single tensor and a
scalar list of length 1 returns a boolean, and it returns `true` if (and only if) the
tensor has strided layout and is non-overlapping-and-dense, the flag is not set or the
tensor's dtype is not integral (Bool included), and the pair is promotion-stable. -/
theorem single_tensor_eligible_iff (result_type : σ → Tensor α → ScalarType)
    (t : Tensor α) (s : σ) (flag : Bool) :
    (∃ b, check_fast_path_restrictions result_type [[t]] [s] flag = Except.ok b) ∧
    (check_fast_path_restrictions result_type [[t]] [s] flag = Except.ok true ↔
      t.layout = kStrided ∧ t.is_non_overlapping_and_dense = true ∧
        (flag = true → isIntegralType t.scalar_type true = false) ∧
        result_type s t = t.scalar_type) := by
  have hv : StructurallyValid [[t]] [s] 1 := by simp [StructurallyValid]
  obtain ⟨b, hb, hbiff⟩ := check_fast_path_restrictions_spec result_type [[t]] [s] flag 1
    [t] t hv rfl rfl
  refine ⟨⟨b, hb⟩, ?_⟩
  have hself : SameGeometryAt [t] [t] 0 := ⟨t, t, rfl, rfl, rfl, rfl⟩
  rw [hb]
  constructor
  · intro h
    cases h
    obtain ⟨hok, -, hpos⟩ := hbiff.mp rfl
    obtain ⟨-, -, hlay, hdense⟩ := hok [t] (by simp) t (by simp)
    obtain ⟨hf, hs⟩ := hpos 0 (by decide)
    refine ⟨hlay, hdense, fun hflag => ?_, ?_⟩
    · obtain ⟨t', ht', hn⟩ := hf hflag
      cases ht'
      exact hn
    · obtain ⟨s', t', hs', ht', hr⟩ := hs (by simp)
      cases ht'
      cases hs'
      exact hr
  · rintro ⟨hlay, hdense, hflag, hstable⟩
    congr 1
    apply hbiff.mpr
    refine ⟨?_, ?_, ?_⟩
    · intro tl htl tensor htensor
      simp only [List.mem_singleton] at htl
      subst htl
      simp only [List.mem_singleton] at htensor
      subst htensor
      exact ⟨rfl, rfl, hlay, hdense⟩
    · intro tl htl j hj
      simp only [List.mem_singleton] at htl
      subst htl
      have : j = 0 := by omega
      subst this
      exact hself
    · intro i hi
      have : i = 0 := by omega
      subst this
      exact ⟨fun hf => ⟨t, rfl, hflag hf⟩, fun _ => ⟨s, t, rfl, rfl, hstable⟩⟩

/-- Claim C12 (amended) at a concrete input: a lone dense float32 vector with an
integer scalar and the flag set is eligible. -/
theorem single_tensor_eligible_witness :
    check_fast_path_restrictions sample_result_type [[float_vec3]] [false] true =
      Except.ok true :=
  (single_tensor_eligible_iff sample_result_type float_vec3 false true).2.mpr
    ⟨rfl, rfl, fun _ => rfl, rfl⟩

theorem selected_scalar_singleton (s : σ) (i : Nat) : selected_scalar [s] i = some s := by
  simp [selected_scalar]

theorem selected_scalar_replicate (s : σ) (L i : Nat) (hi : i < L) :
    selected_scalar (List.replicate L s) i = some s := by
  unfold selected_scalar
  by_cases h1 : (List.replicate L s).length = 1
  · have hL : L = 1 := by simpa using h1
    subst hL
    simp
  · simp only [h1, if_false]
    rw [List.getElem?_eq_getElem (by simpa using hi)]
    simp

/-- Claim C16: scalar broadcast. For structurally valid tensor lists of common length
`L ≥ 1`, every scalar `s` and every flag, the checker gives the same result for the
one-element scalar list `[s]` as for the scalar list of `L` copies of `s`. -/
theorem scalar_broadcast (result_type : σ → Tensor α → ScalarType)
    (tensorLists : List (List (Tensor α))) (s : σ) (flag : Bool) (L : Nat)
    (hv : StructurallyValid tensorLists [s] L) :
    check_fast_path_restrictions result_type tensorLists [s] flag =
      check_fast_path_restrictions result_type tensorLists (List.replicate L s) flag := by
  have hv2 : StructurallyValid tensorLists (List.replicate L s) L :=
    ⟨hv.1, hv.2.1, hv.2.2.1, Or.inr (Or.inr (by simp))⟩
  obtain ⟨first, t00, h0, h00⟩ := exists_first_of_valid hv
  obtain ⟨b1, hb1, hb1iff⟩ := check_fast_path_restrictions_spec result_type tensorLists
    [s] flag L first t00 hv h0 h00
  obtain ⟨b2, hb2, hb2iff⟩ := check_fast_path_restrictions_spec result_type tensorLists
    (List.replicate L s) flag L first t00 hv2 h0 h00
  have hne : List.replicate L s ≠ [] := by
    intro h
    have := congrArg List.length h
    simp at this
    have := hv.2.1
    omega
  have hsame : b1 = true ↔ b2 = true := by
    rw [hb1iff, hb2iff]
    refine and_congr_right fun _ => and_congr_right fun _ => forall_congr' fun i =>
      forall_congr' fun hi => and_congr_right fun _ => ?_
    simp only [selected_scalar_singleton, selected_scalar_replicate s L i hi, ne_eq,
      List.cons_ne_nil, not_false_eq_true, hne, forall_true_left]
  rw [hb1, hb2]
  congr 1
  cases b1 <;> cases b2 <;> simp_all

/-- Claim C16 at a concrete input: two parallel lists of length 2 and a floating-point
scalar, alone or repeated twice. -/
theorem scalar_broadcast_witness :
    check_fast_path_restrictions sample_result_type sample_lists [true] false =
      check_fast_path_restrictions sample_result_type sample_lists
        (List.replicate 2 true) false :=
  scalar_broadcast sample_result_type sample_lists true false 2 (by decide)

/-- Claim C17: relaxing the optional arguments never loses eligibility. On structurally
valid input, if the checker returns `true` for some scalar list and some flag, it also
returns `true` for the empty scalar list and the flag unset. -/
theorem relaxing_keeps_eligibility (result_type : σ → Tensor α → ScalarType)
    (tensorLists : List (List (Tensor α))) (scalarList : List σ) (flag : Bool) (L : Nat)
    (hv : StructurallyValid tensorLists scalarList L)
    (htrue : check_fast_path_restrictions result_type tensorLists scalarList flag =
      Except.ok true) :
    check_fast_path_restrictions result_type tensorLists [] false = Except.ok true := by
  have hv2 : StructurallyValid tensorLists ([] : List σ) L :=
    ⟨hv.1, hv.2.1, hv.2.2.1, Or.inl rfl⟩
  obtain ⟨first, t00, h0, h00⟩ := exists_first_of_valid hv
  obtain ⟨b1, hb1, hb1iff⟩ := check_fast_path_restrictions_spec result_type tensorLists
    scalarList flag L first t00 hv h0 h00
  obtain ⟨b2, hb2, hb2iff⟩ := check_fast_path_restrictions_spec result_type tensorLists
    [] false L first t00 hv2 h0 h00
  rw [hb1] at htrue
  cases htrue
  obtain ⟨hok, hgeo, -⟩ := hb1iff.mp rfl
  rw [hb2]
  congr 1
  apply hb2iff.mpr
  exact ⟨hok, hgeo, fun i _ => ⟨fun h => (by cases h), fun h => absurd rfl h⟩⟩

/-- Claim C17 at a concrete input: the sample lists are eligible with a scalar and the
flag set, hence also without scalars and with the flag unset. -/
theorem relaxing_keeps_eligibility_witness :
    check_fast_path_restrictions sample_result_type sample_lists [false] true =
      Except.ok true ∧
    check_fast_path_restrictions sample_result_type sample_lists [] false =
      Except.ok true :=
  ⟨rfl, relaxing_keeps_eligibility sample_result_type sample_lists [false] true 2
    (by decide) rfl⟩

theorem check_fast_path_restrictions_returns (result_type : σ → Tensor α → ScalarType)
    (tensorLists : List (List (Tensor α))) (scalarList : List σ) (flag : Bool) (L : Nat)
    (hv : StructurallyValid tensorLists scalarList L) :
    ∃ b, check_fast_path_restrictions result_type tensorLists scalarList flag =
      Except.ok b := by
  obtain ⟨first, t00, h0, h00⟩ := exists_first_of_valid hv
  obtain ⟨b, hb, -⟩ := check_fast_path_restrictions_spec result_type tensorLists
    scalarList flag L first t00 hv h0 h00
  exact ⟨b, hb⟩

theorem SameGeometryAt.symm {a b : List (Tensor α)} {j : Nat}
    (h : SameGeometryAt a b j) : SameGeometryAt b a j := by
  obtain ⟨x, y, hx, hy, h1, h2⟩ := h
  exact ⟨y, x, hy, hx, h1.symm, h2.symm⟩

/-- A `true` verdict for two lists survives swapping them. -/
theorem swap_keeps_true (result_type : σ → Tensor α → ScalarType)
    (tensors1 tensors2 : List (Tensor α)) (flag : Bool)
    (h1 : tensors1 ≠ []) (hlen : tensors1.length = tensors2.length)
    (htrue : check_fast_path_restrictions result_type [tensors1, tensors2] [] flag =
      Except.ok true) :
    check_fast_path_restrictions result_type [tensors2, tensors1] [] flag =
      Except.ok true := by
  have hL : 1 ≤ tensors1.length := by
    cases tensors1 with
    | nil => exact absurd rfl h1
    | cons a as => simp
  have hv : StructurallyValid [tensors1, tensors2] ([] : List σ) tensors1.length :=
    ⟨by simp, hL, by simp [hlen], Or.inl rfl⟩
  have hv2 : StructurallyValid [tensors2, tensors1] ([] : List σ) tensors1.length :=
    ⟨by simp, hL, by simp [hlen], Or.inl rfl⟩
  obtain ⟨a, ha, -⟩ := index_of_lt tensors1 0 (by omega)
  obtain ⟨b, hb, -⟩ := index_of_lt tensors2 0 (by omega)
  obtain ⟨c1, hc1, hc1iff⟩ := check_fast_path_restrictions_spec result_type
    [tensors1, tensors2] [] flag tensors1.length tensors1 a hv rfl ha
  obtain ⟨c2, hc2, hc2iff⟩ := check_fast_path_restrictions_spec result_type
    [tensors2, tensors1] [] flag tensors1.length tensors2 b hv2 rfl hb
  rw [hc1] at htrue
  cases htrue
  obtain ⟨hok, hgeo, hpos⟩ := hc1iff.mp rfl
  have hba : b.scalar_type = a.scalar_type ∧ b.device = a.device :=
    ⟨(hok tensors2 (by simp) b (List.getElem?_mem hb)).1,
      (hok tensors2 (by simp) b (List.getElem?_mem hb)).2.1⟩
  have h12 : ∀ j < tensors1.length, SameGeometryAt tensors1 tensors2 j :=
    hgeo tensors2 (by simp)
  rw [hc2]
  congr 1
  apply hc2iff.mpr
  refine ⟨?_, ?_, ?_⟩
  · intro tl htl t ht
    have htl2 : tl ∈ [tensors1, tensors2] := by
      simp only [List.mem_cons, List.mem_singleton, List.not_mem_nil, or_false] at htl ⊢
      exact htl.symm
    obtain ⟨hd, hdev, hrest⟩ := hok tl htl2 t ht
    exact ⟨hd.trans hba.1.symm, hdev.trans hba.2.symm, hrest⟩
  · intro tl htl j hj
    simp only [List.mem_cons, List.mem_singleton, List.not_mem_nil, or_false] at htl
    rcases htl with htl | htl
    · subst htl
      exact (h12 j hj).trans_left (h12 j hj)
    · subst htl
      exact (h12 j hj).symm
  · intro i hi
    refine ⟨fun hf => ?_, fun h => absurd rfl h⟩
    obtain ⟨t, ht, -⟩ := index_of_lt tensors2 i (by omega)
    obtain ⟨a', ha', hna⟩ := (hpos 0 (by omega)).1 hf
    rw [ha] at ha'
    cases ha'
    refine ⟨t, ht, ?_⟩
    rw [(hok tensors2 (by simp) t (List.getElem?_mem ht)).1]
    exact hna

/-- Claim C18: the verdict does not depend on which list is first. For two non-empty
tensor lists of equal length and every flag, `can_use_fast_route(tensors1, tensors2,
flag)` equals `can_use_fast_route(tensors2, tensors1, flag)`. -/
theorem can_use_fast_route_swap (result_type : σ → Tensor α → ScalarType)
    (tensors1 tensors2 : List (Tensor α)) (flag : Bool)
    (h1 : tensors1 ≠ []) (h2 : tensors2 ≠ [])
    (hlen : tensors1.length = tensors2.length) :
    can_use_fast_route2 result_type tensors1 tensors2 flag =
      can_use_fast_route2 result_type tensors2 tensors1 flag := by
  have hL : 1 ≤ tensors1.length := by
    cases tensors1 with
    | nil => exact absurd rfl h1
    | cons a as => simp
  have hv : StructurallyValid [tensors1, tensors2] ([] : List σ) tensors1.length :=
    ⟨by simp, hL, by simp [hlen], Or.inl rfl⟩
  have hv2 : StructurallyValid [tensors2, tensors1] ([] : List σ) tensors1.length :=
    ⟨by simp, hL, by simp [hlen], Or.inl rfl⟩
  obtain ⟨c1, hc1⟩ := check_fast_path_restrictions_returns result_type
    [tensors1, tensors2] [] flag tensors1.length hv
  obtain ⟨c2, hc2⟩ := check_fast_path_restrictions_returns result_type
    [tensors2, tensors1] [] flag tensors1.length hv2
  have hfwd := swap_keeps_true result_type tensors1 tensors2 flag h1 hlen
  have hbwd := swap_keeps_true result_type tensors2 tensors1 flag h2 hlen.symm
  unfold can_use_fast_route2 can_use_fast_route
  rw [hc1, hc2] at hfwd hbwd ⊢
  congr 1
  cases c1 <;> cases c2 <;> simp_all

/-- Claim C18 at a concrete input: a list of two float32 tensors against a list holding
a float32 and an int32 tensor, in either order. -/
theorem can_use_fast_route_swap_witness :
    can_use_fast_route2 sample_result_type [float_vec3, float_vec3] [float_vec3, int_vec3]
        true =
      can_use_fast_route2 sample_result_type [float_vec3, int_vec3]
        [float_vec3, float_vec3] true :=
  can_use_fast_route_swap sample_result_type [float_vec3, float_vec3]
    [float_vec3, int_vec3] true (by simp) (by simp) rfl

/-! ### The checker over views into longer arrays -/

theorem ArrayRef.get_ofList {β : Type} (xs : List β) (i : Nat) :
    (ArrayRef.ofList xs).get i = xs[i]? := rfl

theorem ArrayRef.elements_ofList {β : Type} (xs : List β) :
    (ArrayRef.ofList xs).elements = xs := by
  simp [ArrayRef.elements, ArrayRef.ofList]

theorem unchecked_same_sizes_strides_at_ofList (a b : List (Tensor α)) (js : List Nat) :
    Unchecked.same_sizes_strides_at (ArrayRef.ofList a) (ArrayRef.ofList b) js =
      (same_sizes_strides_at a b js).toOption := by
  induction js with
  | nil => rfl
  | cons j js ih =>
    simp only [Unchecked.same_sizes_strides_at, same_sizes_strides_at, index,
      ArrayRef.get_ofList]
    cases a[j]? with
    | none => rfl
    | some x =>
      cases b[j]? with
      | none => rfl
      | some y =>
        simp only []
        by_cases h1 : (x.sizes != y.sizes) = true
        · simp [h1, Except.toOption]
        · by_cases h2 : (x.strides != y.strides) = true
          · simp [h1, h2, Except.toOption]
          · simp only [h1, h2, if_false]
            exact ih

theorem unchecked_same_sizes_strides_ofList (a : List (Tensor α))
    (lists : List (List (Tensor α))) :
    Unchecked.same_sizes_strides (ArrayRef.ofList a) (lists.map ArrayRef.ofList) =
      (same_sizes_strides a lists).toOption := by
  induction lists with
  | nil => rfl
  | cons l rest ih =>
    simp only [List.map_cons, Unchecked.same_sizes_strides, same_sizes_strides]
    have hsize : (ArrayRef.ofList a).size = a.length := rfl
    rw [hsize, unchecked_same_sizes_strides_at_ofList]
    cases same_sizes_strides_at a l (List.range a.length) with
    | error e => rfl
    | ok c =>
      cases c with
      | false => rfl
      | true => exact ih

theorem unchecked_promotion_loop_ofList (result_type : σ → Tensor α → ScalarType)
    (a : List (Tensor α)) (scalars : List σ) (flag : Bool) (positions : List Nat) :
    Unchecked.promotion_loop result_type (ArrayRef.ofList a) (ArrayRef.ofList scalars)
        flag positions =
      (promotion_loop result_type a scalars flag positions).toOption := by
  have hint : ∀ i, Unchecked.not_integral_at (ArrayRef.ofList a) i =
      (not_integral_at a i).toOption := by
    intro i
    simp only [Unchecked.not_integral_at, not_integral_at, index, ArrayRef.get_ofList]
    cases a[i]? with
    | none => rfl
    | some t => cases h : isIntegralType t.scalar_type true <;> simp [h, Except.toOption]
  have hsc : ∀ i, Unchecked.scalar_keeps_dtype result_type (ArrayRef.ofList a)
      (ArrayRef.ofList scalars) i =
      (scalar_keeps_dtype result_type a scalars i).toOption := by
    intro i
    have hsize : (ArrayRef.ofList scalars).size = scalars.length := rfl
    simp only [Unchecked.scalar_keeps_dtype, scalar_keeps_dtype, index,
      ArrayRef.get_ofList, hsize]
    by_cases h1 : (scalars.length == 1) = true
    · simp only [h1, if_true]
      cases scalars[0]? with
      | none => rfl
      | some s =>
        cases a[i]? with
        | none => rfl
        | some t =>
          by_cases h : (t.scalar_type != result_type s t) = true <;>
            simp [h, Except.toOption]
    · simp only [h1, if_false]
      cases scalars[i]? with
      | none => rfl
      | some s =>
        cases a[i]? with
        | none => rfl
        | some t =>
          by_cases h : (t.scalar_type != result_type s t) = true <;>
            simp [h, Except.toOption]
  have hempty : (!(ArrayRef.ofList scalars).empty) = !scalars.isEmpty := by
    cases scalars <;> rfl
  induction positions with
  | nil => rfl
  | cons i rest ih =>
    simp only [Unchecked.promotion_loop, promotion_loop, hempty]
    cases flag with
    | false =>
      simp only [Bool.false_eq_true, if_false]
      cases hs : !scalars.isEmpty with
      | false =>
        simp only [Bool.false_eq_true, if_false]
        exact ih
      | true =>
        simp only [if_true, hsc]
        cases scalar_keeps_dtype result_type a scalars i with
        | error e => rfl
        | ok c =>
          cases c with
          | false => rfl
          | true => exact ih
    | true =>
      simp only [if_true, hint]
      cases not_integral_at a i with
      | error e => rfl
      | ok c =>
        cases c with
        | false => rfl
        | true =>
          simp only [Except.toOption]
          cases hs : !scalars.isEmpty with
          | false =>
            simp only [Bool.false_eq_true, if_false]
            exact ih
          | true =>
            simp only [if_true, hsc]
            cases scalar_keeps_dtype result_type a scalars i with
            | error e => rfl
            | ok c =>
              cases c with
              | false => rfl
              | true => exact ih

/-- On views that span their whole arrays the checker with unchecked `operator[]` is
the checker over lists: it returns the same boolean, and a read that finds no object
is the outcome `Error.out_of_bounds` of the list embedding. -/
theorem unchecked_check_ofList (result_type : σ → Tensor α → ScalarType)
    (tensorLists : List (List (Tensor α))) (scalarList : List σ) (flag : Bool) :
    Unchecked.check_fast_path_restrictions result_type
        (ArrayRef.ofList (tensorLists.map ArrayRef.ofList)) (ArrayRef.ofList scalarList)
        flag =
      (check_fast_path_restrictions result_type tensorLists scalarList flag).toOption := by
  have hel : (tensorLists.map ArrayRef.ofList).map ArrayRef.elements = tensorLists := by
    rw [List.map_map]
    conv_rhs => rw [← List.map_id tensorLists]
    apply List.map_congr_left
    intro l _
    exact ArrayRef.elements_ofList l
  simp only [Unchecked.check_fast_path_restrictions, check_fast_path_restrictions, index,
    ArrayRef.get_ofList, ArrayRef.elements_ofList, hel, List.getElem?_map]
  cases tensorLists[0]? with
  | none => rfl
  | some first =>
    simp only [Option.map_some', ArrayRef.get_ofList]
    cases first[0]? with
    | none => rfl
    | some t00 =>
      simp only []
      cases all_tensors_okay t00.scalar_type t00.device tensorLists with
      | false => rfl
      | true =>
        simp only [Bool.not_true, Bool.false_eq_true, if_false]
        rw [unchecked_same_sizes_strides_ofList]
        cases same_sizes_strides first tensorLists with
        | error e => rfl
        | ok c =>
          cases c with
          | false => rfl
          | true =>
            simp only [Except.toOption]
            have hsize : (ArrayRef.ofList first).size = first.length := rfl
            rw [hsize, unchecked_promotion_loop_ofList]
            cases promotion_loop result_type first scalarList flag
                (List.range first.length) with
            | error e => rfl
            | ok c => cases c <;> rfl

theorem unchecked_same_sizes_strides_of_empty (first : ArrayRef (Tensor α))
    (lists : List (ArrayRef (Tensor α))) (hempty : first.size = 0) :
    Unchecked.same_sizes_strides first lists = some true := by
  induction lists with
  | nil => rfl
  | cons l rest ih =>
    simp only [Unchecked.same_sizes_strides, hempty, List.range_zero,
      Unchecked.same_sizes_strides_at]
    exact ih

/-- Claim C15 as stated fails: the out-of-bounds accesses raise no indexing failure. An
empty first list that is a view at the start of an array holding a float32 vector
makes `tensorLists[0][0]` read that vector, and the call returns `true`; a second list
of length 1 that is a view of an array of two vectors, next to a first list of length
2, makes `tensor_list[1]` read the second vector, and the call returns `true`. -/
theorem out_of_bounds_read_returns_boolean :
    (empty_view.size = 0 ∧ empty_view.get 0 = some float_vec3 ∧
      Unchecked.check_fast_path_restrictions sample_result_type
        (ArrayRef.ofList [empty_view]) (ArrayRef.ofList []) false = some true) ∧
    (short_view.size < long_view.size ∧ short_view.get 1 = some float_vec3 ∧
      Unchecked.check_fast_path_restrictions sample_result_type
        (ArrayRef.ofList [long_view, short_view]) (ArrayRef.ofList []) false =
          some true) :=
  ⟨⟨rfl, rfl, rfl⟩, ⟨by decide, rfl, rfl⟩⟩

/-- Claim C15, amended: the checker does not re-validate lengths, and its `operator[]`
accesses are unchecked, so an out-of-bounds access raises no indexing failure but
reads the position past the list's end in the underlying array. For every input whose
first tensor list is empty the access `tensorLists[0][0]` is out of bounds: when a
tensor lies at that position the call returns a boolean, `true` exactly when every
tensor of every list has that tensor's dtype and device, is strided and is
non-overlapping-and-dense; when none lies there the read has no defined result. For
some input whose second list is shorter than the first, all tensors passing the
dtype, device and layout check, the access `tensor_list[1]` is out of bounds and the
call returns `true` (the short list is a view of a longer array); when the short list
spans its whole array the read has no defined result. -/
theorem out_of_bounds_reads_are_unchecked (result_type : σ → Tensor α → ScalarType)
    (tensorLists : ArrayRef (ArrayRef (Tensor α))) (scalarList : ArrayRef σ)
    (flag : Bool) :
    (∀ first, tensorLists.get 0 = some first → first.size = 0 →
      ¬ (0 < first.size) ∧
      (first.get 0 = none →
        Unchecked.check_fast_path_restrictions result_type tensorLists scalarList flag =
          none) ∧
      (∀ t00, first.get 0 = some t00 →
        Unchecked.check_fast_path_restrictions result_type tensorLists scalarList flag =
          some (all_tensors_okay t00.scalar_type t00.device
            (tensorLists.elements.map ArrayRef.elements)))) ∧
    (short_view.size < long_view.size ∧
      all_tensors_okay float_vec3.scalar_type float_vec3.device
        ([long_view, short_view].map ArrayRef.elements) = true ∧
      ¬ (1 < short_view.size) ∧ short_view.get 1 = some float_vec3 ∧
      Unchecked.check_fast_path_restrictions sample_result_type
        (ArrayRef.ofList [long_view, short_view]) (ArrayRef.ofList []) false =
          some true ∧
      Unchecked.check_fast_path_restrictions sample_result_type
        (ArrayRef.ofList [long_view, ArrayRef.ofList [float_vec3]]) (ArrayRef.ofList [])
        false = none) := by
  refine ⟨fun first h0 hempty => ⟨by omega, fun h00 => ?_, fun t00 h00 => ?_⟩,
    by decide, rfl, by decide, rfl, rfl, rfl⟩
  · simp [Unchecked.check_fast_path_restrictions, h0, h00]
  · simp only [Unchecked.check_fast_path_restrictions, h0, h00,
      unchecked_same_sizes_strides_of_empty first _ hempty, hempty, List.range_zero,
      Unchecked.promotion_loop]
    cases all_tensors_okay t00.scalar_type t00.device
      (tensorLists.elements.map ArrayRef.elements) <;> rfl

/-- Claim C15 (amended) at a concrete input: an empty first list that is a view at the
start of an array holding a float32 vector, followed by a list of two float32
vectors, with one floating-point scalar and the flag set. -/
theorem out_of_bounds_reads_witness :
    empty_view.size = 0 ∧
    Unchecked.check_fast_path_restrictions sample_result_type
        (ArrayRef.ofList [empty_view, long_view]) (ArrayRef.ofList [true]) true =
      some true :=
  ⟨rfl, ((out_of_bounds_reads_are_unchecked sample_result_type
    (ArrayRef.ofList [empty_view, long_view]) (ArrayRef.ofList [true]) true).1
      empty_view rfl rfl).2.2 float_vec3 rfl⟩

end CheckerProofs

/-! ## Properties of the packed-scalar decoder -/

section DecoderProofs

variable {α σ : Type}

/-- The decoder on a tensor that meets the four preconditions and has a dispatch case:
one scalar per element, in index order. -/
theorem convert_tensor_to_scalar_list_ok (mkScalar : ScalarType → α → σ)
    (t : Tensor α) (n : Int) (hdev : t.device = kCPU) (hcontig : t.is_contiguous = true)
    (hsizes : t.sizes = [n]) (hcase : dispatch_has_case t.scalar_type = true) :
    convert_tensor_to_scalar_list mkScalar t n =
      Except.ok ((List.range n.toNat).map fun i => mkScalar t.scalar_type (t.data_ptr i)) := by
  simp [convert_tensor_to_scalar_list, TORCH_CHECK, bind, Except.bind, hdev, hcontig,
    Tensor.dim, Tensor.size, index, hsizes, hcase]

/-- Claim C4: for a packed tensor whose dtype has a dispatch case and any expected
length `n`, `convert_tensor_to_scalar_list` succeeds if and only if the tensor is on
the CPU, is contiguous, has exactly one dimension and its length equals `n`; when one
of the four is violated the call fails and returns no sequence. -/
theorem convert_tensor_to_scalar_list_succeeds_iff (mkScalar : ScalarType → α → σ)
    (t : Tensor α) (n : Int) (hcase : dispatch_has_case t.scalar_type = true) :
    ((∃ out, convert_tensor_to_scalar_list mkScalar t n = Except.ok out) ↔
      t.device = kCPU ∧ t.is_contiguous = true ∧ t.dim = 1 ∧ t.sizes[0]? = some n) ∧
    (¬ (t.device = kCPU ∧ t.is_contiguous = true ∧ t.dim = 1 ∧ t.sizes[0]? = some n) →
      ∃ msg, convert_tensor_to_scalar_list mkScalar t n =
        Except.error (Error.torch_check msg)) := by
  by_cases hdev : t.device = kCPU
  · by_cases hcontig : t.is_contiguous = true
    · by_cases hdim : t.dim = 1
      · obtain ⟨k, hk⟩ : ∃ k, t.sizes = [k] := by
          unfold Tensor.dim at hdim
          exact List.length_eq_one.mp hdim
        by_cases hn : n = k
        · subst hn
          rw [convert_tensor_to_scalar_list_ok mkScalar t n hdev hcontig hk hcase]
          simp [hdev, hcontig, hdim, hk]
        · have hn2 : ¬ k = n := fun e => hn e.symm
          simp [convert_tensor_to_scalar_list, TORCH_CHECK, bind, Except.bind, hdev,
            hcontig, Tensor.dim, Tensor.size, index, hk, hcase, hn, hn2]
      · simp [convert_tensor_to_scalar_list, TORCH_CHECK, bind, Except.bind, hdev,
          hcontig, hdim]
    · simp [convert_tensor_to_scalar_list, TORCH_CHECK, bind, Except.bind, hdev, hcontig]
  · simp [convert_tensor_to_scalar_list, TORCH_CHECK, bind, Except.bind, hdev]

/-- Claim C4 at a concrete input: a float32 vector of three elements decodes with
expected length 3. -/
theorem convert_tensor_to_scalar_list_succeeds_witness :
    ∃ out, convert_tensor_to_scalar_list (fun _ (v : Nat) => (v : Int)) float_vec3 3 =
      Except.ok out :=
  (convert_tensor_to_scalar_list_succeeds_iff (fun _ (v : Nat) => (v : Int)) float_vec3 3
    rfl).1.mpr ⟨rfl, rfl, rfl, rfl⟩

/-- Claim C6: for a 1-D contiguous CPU tensor with `N` elements of a dtype that has a
dispatch case, `convert_tensor_to_scalar_list(tensor, N)` returns exactly `N` scalars,
the `i`-th being the scalar built from the tensor's `i`-th element. -/
theorem convert_tensor_to_scalar_list_elementwise (mkScalar : ScalarType → α → σ)
    (t : Tensor α) (N : Nat) (hdev : t.device = kCPU) (hcontig : t.is_contiguous = true)
    (hsizes : t.sizes = [(N : Int)]) (hcase : dispatch_has_case t.scalar_type = true) :
    ∃ out, convert_tensor_to_scalar_list mkScalar t N = Except.ok out ∧
      out.length = N ∧
      (∀ i < N, out[i]? = some (mkScalar t.scalar_type (t.data_ptr i))) ∧
      out = (List.range N).map fun i => mkScalar t.scalar_type (t.data_ptr i) := by
  refine ⟨_, convert_tensor_to_scalar_list_ok mkScalar t N hdev hcontig hsizes hcase, ?_, ?_, ?_⟩
  · simp
  · intro i hi
    simp [hi]
  · simp

/-- Claim C6 at a concrete input: the float32 vector with elements 10, 11, 12. -/
theorem convert_tensor_to_scalar_list_elementwise_witness :
    ∃ out, convert_tensor_to_scalar_list (fun _ (v : Nat) => (v : Int)) float_vec3
        ((3 : Nat) : Int) = Except.ok out ∧
      out.length = 3 ∧
      (∀ i < 3, out[i]? = some ((float_vec3.data_ptr i : Nat) : Int)) ∧
      out = (List.range 3).map fun i => ((float_vec3.data_ptr i : Nat) : Int) :=
  convert_tensor_to_scalar_list_elementwise (fun _ (v : Nat) => (v : Int)) float_vec3 3
    rfl rfl rfl rfl

/-- Claim C5: decoder round trip. Scalars of one numeric kind `dtype` (each scalar is
the scalar built from its own element encoding) that are packed into a 1-D contiguous
host tensor of that kind are returned by `convert_tensor_to_scalar_list` with expected
length `N`, all `N` of them and in the original order. -/
theorem decoder_round_trip (mkScalar : ScalarType → α → σ) (toElement : σ → α)
    (dtype : ScalarType) (fill : α) (scalars : List σ)
    (hcase : dispatch_has_case dtype = true)
    (hkind : ∀ s ∈ scalars, mkScalar dtype (toElement s) = s) :
    convert_tensor_to_scalar_list mkScalar (pack dtype fill (scalars.map toElement))
      (scalars.length : Int) = Except.ok scalars := by
  rw [convert_tensor_to_scalar_list_ok mkScalar _ (scalars.length : Int) rfl rfl
    (by simp [pack]) hcase]
  congr 1
  apply List.ext_getElem
  · simp
  · intro i h1 h2
    have hi : scalars[i]? = some scalars[i] := List.getElem?_eq_getElem h2
    simp [pack, hi]
    exact hkind _ (List.getElem_mem h2)

/-- Claim C5 at a concrete input: the integer scalars 4, -2 and 7, stored in a `Long`
tensor with an offset of 5 and rebuilt by removing the offset, come back unchanged. -/
theorem decoder_round_trip_witness :
    convert_tensor_to_scalar_list (fun _ (v : Nat) => ((v : Int) - 5))
      (pack ScalarType.Long 0 ([4, -2, 7].map fun s : Int => (s + 5).toNat)) 3 =
      Except.ok [4, -2, 7] :=
  decoder_round_trip (fun _ (v : Nat) => ((v : Int) - 5)) (fun s : Int => (s + 5).toNat)
    ScalarType.Long 0 [4, -2, 7] rfl (by decide)

end DecoderProofs

/-! ## Properties of the fast-route wrappers and the dtype queries -/

section WrapperProofs

variable {α σ : Type}

/-- Claim C13: `can_use_fast_route` is a pure wrapper. For all arguments it equals
`check_fast_path_restrictions` on the same arguments, and the two-list overload equals
`check_fast_path_restrictions` on the two lists with an empty scalar list, as results
of the call: a boolean where the checker returns one, its failure where it fails. -/
theorem can_use_fast_route_eq_check (result_type : σ → Tensor α → ScalarType)
    (tensorLists : List (List (Tensor α))) (scalarList : List σ)
    (tensors1 tensors2 : List (Tensor α)) (flag : Bool) :
    can_use_fast_route result_type tensorLists scalarList flag =
      check_fast_path_restrictions result_type tensorLists scalarList flag ∧
    can_use_fast_route2 result_type tensors1 tensors2 flag =
      check_fast_path_restrictions result_type [tensors1, tensors2] [] flag :=
  ⟨rfl, rfl⟩

theorem isIntegralType_includeBool (t : ScalarType) :
    isIntegralType t true = (isIntegralType t false || t == ScalarType.Bool) := by
  cases t <;> rfl

/-- Claim C19: for every tensor list, `has_integral_tensor(tensors, includeBool)` is
true exactly when some tensor has an integral dtype under `includeBool`,
`has_bool_tensor(tensors)` exactly when some tensor has dtype Bool, all three queries
are false on the empty list, and `has_integral_tensor(tensors, true)` equals
`has_integral_tensor(tensors, false) || has_bool_tensor(tensors)`. -/
theorem has_integral_tensor_spec (tensors : List (Tensor α)) (includeBool : Bool) :
    (has_integral_tensor tensors includeBool = true ↔
      ∃ t ∈ tensors, isIntegralType t.scalar_type includeBool = true) ∧
    (has_bool_tensor tensors = true ↔ ∃ t ∈ tensors, t.scalar_type = ScalarType.Bool) ∧
    (has_integral_tensor ([] : List (Tensor α)) includeBool = false ∧
      has_bool_tensor ([] : List (Tensor α)) = false) ∧
    has_integral_tensor tensors true =
      (has_integral_tensor tensors false || has_bool_tensor tensors) := by
  refine ⟨by simp [has_integral_tensor], by simp [has_bool_tensor], ⟨rfl, rfl⟩, ?_⟩
  induction tensors with
  | nil => rfl
  | cons t ts ih =>
    simp only [has_integral_tensor, has_bool_tensor, List.any_cons] at ih ⊢
    rw [ih, isIntegralType_includeBool]
    cases isIntegralType t.scalar_type false <;> cases (t.scalar_type == ScalarType.Bool) <;>
      simp

end WrapperProofs

end ForeachUtils
